import Mathlib

/-!
# Verification of the trello-time-tracker core

A shallow embedding of the time-tracking core of the repository:

* `src/utils/time.js`     — duration formatting/parsing and live totals,
* `src/utils/storage.js`  — timer store operations (Supabase-backed),
* the estimate store (`setEstimate`, `getBoardEstimateReport`),
* the report aggregation of `ReportApp.jsx`,
* the accuracy metric of `EstimateApp.jsx`.

Conventions used throughout:

* JS strings are modelled as `List Char` where character-level reasoning is
  needed (duration format/parse) and as `String` elsewhere.
* Instants (`Date.now()`, ISO timestamps) are `Nat` milliseconds since epoch;
  durations are `Int` (manual adjustments may be negative).
* Async store calls return their row sets from the current state (sequential,
  reliable-read semantics).  Backend *write* outcomes are explicit
  `Option DbErr` parameters (`none` = success).
* A function result `Except.error e` models a thrown/rejected promise, i.e. an
  error that reaches the caller; `Except.ok` models normal resolution.  The
  `List DbErr` component of a write result models messages passed to
  `console.error` (visible in the console only, not to the caller).
-/

/-- A Trello card label (`{name, color}`). -/
structure Label where
  name : String
  color : String
deriving Repr, DecidableEq

/-- Backend (Supabase) error object. -/
abbrev DbErr := String

/-! ## Association-list helpers

JS plain objects / `Map`s keyed by strings, preserving insertion order:
lookup finds the first binding, `setA` overwrites in place or appends. -/

/-- First binding for a key, if any. -/
def lookupA {α : Type} (k : String) : List (String × α) → Option α
  | [] => none
  | (k', v) :: r => if k' = k then some v else lookupA k r

/-- Overwrite the first binding for `k`, or append a new one. -/
def setA {α : Type} (k : String) (v : α) : List (String × α) → List (String × α)
  | [] => [(k, v)]
  | (k', v') :: r => if k' = k then (k, v) :: r else (k', v') :: setA k v r

/-! ## `src/utils/time.js` -/

/-- One decimal digit as a character (how `${n}` prints a digit). -/
def digitChar : Nat → Char
  | 0 => '0' | 1 => '1' | 2 => '2' | 3 => '3' | 4 => '4'
  | 5 => '5' | 6 => '6' | 7 => '7' | 8 => '8' | _ => '9'

/-- Fuel-driven decimal printer (the fuel is only there to make the
definition structurally recursive; `natToChars` supplies enough). -/
def natToCharsAux (fuel : Nat) (n : Nat) : List Char :=
  match fuel with
  | 0 => []
  | fuel + 1 =>
    if n < 10 then [digitChar n]
    else natToCharsAux fuel (n / 10) ++ [digitChar (n % 10)]

/-- Decimal representation of a number, as JS template interpolation prints it. -/
def natToChars (n : Nat) : List Char := natToCharsAux (n + 1) n

/-- `parts.join(" ")`. -/
def joinSpace : List (List Char) → List Char
  | [] => []
  | [x] => x
  | x :: xs => x ++ ' ' :: joinSpace xs

/-- The `parts` array of `formatDuration`'s long form: hours/minutes when
nonzero, then seconds when nonzero or when `parts.length === 0` (which at
that point means hours and minutes were both zero). -/
def longFormatParts (hours minutes seconds : Nat) : List (List Char) :=
  (if hours > 0 then [natToChars hours ++ ['t']] else []) ++
  (if minutes > 0 then [natToChars minutes ++ ['m']] else []) ++
  (if seconds > 0 ∨ (hours = 0 ∧ minutes = 0) then [natToChars seconds ++ ['s']] else [])

/-- `formatDuration(ms, short)` from `time.js`.  `!ms || ms < 0` on a `Nat`
argument is `ms = 0`. -/
def formatDuration (ms : Nat) (short : Bool) : List Char :=
  if ms = 0 then (if short then ['0', 'm'] else ['0', 'm', ' ', '0', 's'])
  else
    let totalSeconds := ms / 1000
    let hours := totalSeconds / 3600
    let minutes := totalSeconds % 3600 / 60
    let seconds := totalSeconds % 60
    if short then
      if hours > 0 then natToChars hours ++ 't' :: ' ' :: (natToChars minutes ++ ['m'])
      else if minutes > 0 then natToChars minutes ++ ['m']
      else natToChars seconds ++ ['s']
    else joinSpace (longFormatParts hours minutes seconds)

/-- Value of a captured digit run (`parseInt(digits, 10)`). -/
def digitRunVal (l : List Char) : Nat :=
  l.foldl (fun a c => a * 10 + (c.toNat - 48)) 0

/-- First match of the regex `(\d+)\s*U` (for a unit-letter class `isU`),
returning the captured number.  Mirrors JS leftmost-match semantics: at each
position, a match needs a digit run, then spaces, then a unit letter; on
failure the search restarts one character further. -/
def scanUnit (isU : Char → Bool) : List Char → Option Nat
  | [] => none
  | c :: cs =>
    if c.isDigit then
      match ((c :: cs).dropWhile Char.isDigit).dropWhile (fun x => x == ' ') with
      | u :: _ =>
        if isU u then some (digitRunVal ((c :: cs).takeWhile Char.isDigit))
        else scanUnit isU cs
      | [] => scanUnit isU cs
    else scanUnit isU cs

/-- Unit class of `/(\d+)\s*[th]/i`. -/
def isHourUnit (c : Char) : Bool := c == 't' || c == 'T' || c == 'h' || c == 'H'

/-- Unit class of `/(\d+)\s*m/i`. -/
def isMinuteUnit (c : Char) : Bool := c == 'm' || c == 'M'

/-- Unit class of `/(\d+)\s*s/i`. -/
def isSecondUnit (c : Char) : Bool := c == 's' || c == 'S'

/-- `parseDuration(str)` from `time.js`. -/
def parseDuration (str : List Char) : Nat :=
  (match scanUnit isHourUnit str with | some v => v * 3600000 | none => 0) +
  (match scanUnit isMinuteUnit str with | some v => v * 60000 | none => 0) +
  (match scanUnit isSecondUnit str with | some v => v * 1000 | none => 0)

/-! ## `src/utils/storage.js` — data model -/

/-- A row of the `time_entries` table (one completed start→stop cycle, or a
manual adjustment). -/
structure TimeEntry where
  boardId : String
  cardId : String
  cardName : String
  listName : String
  memberId : String
  memberName : String
  startedAt : Nat
  endedAt : Nat
  durationMs : Int
  labels : List Label
deriving Repr, DecidableEq

/-- A row of the `active_timers` table. -/
structure ActiveTimer where
  id : Nat
  boardId : String
  cardId : String
  memberId : String
  memberName : String
  startedAt : Nat
deriving Repr, DecidableEq

/-- The timer store: both tables. -/
structure TimerState where
  timeEntries : List TimeEntry
  activeTimers : List ActiveTimer
deriving Repr, DecidableEq

/-- The Trello Power-Up context data an operation reads from `t`
(`t.member`, `t.card`, `t.board`, `t.list`). -/
structure Ctx where
  boardId : String
  cardId : String
  cardName : String
  listName : String
  memberId : String
  memberName : String
  labels : List Label
deriving Repr, DecidableEq

/-- The `active_timers` row matching `.eq('card_id', …).eq('member_id', …)
.maybeSingle()` for the context's pair. -/
def findActive (st : TimerState) (ctx : Ctx) : Option ActiveTimer :=
  st.activeTimers.find? (fun a => a.cardId == ctx.cardId && a.memberId == ctx.memberId)

/-! ## `src/utils/storage.js` — write operations

Every write returns `Except.ok` (none of them throws); the list component
collects `console.error` output. -/

/-- `startTimer(t)`: no-op when an active timer exists for the pair, else
insert a fresh `active_timers` row with `started_at = now`.  An insert error
is logged and swallowed. -/
def startTimer (st : TimerState) (ctx : Ctx) (now : Nat) (freshId : Nat)
    (insertErr : Option DbErr) : Except DbErr (TimerState × List DbErr) :=
  match findActive st ctx with
  | some _ => .ok (st, [])
  | none =>
    match insertErr with
    | some e => .ok (st, [e])
    | none =>
      .ok ({ st with activeTimers := st.activeTimers ++
        [{ id := freshId, boardId := ctx.boardId, cardId := ctx.cardId,
           memberId := ctx.memberId, memberName := ctx.memberName,
           startedAt := now }] }, [])

/-- The completed entry `stopTimer` inserts for a found active timer. -/
def stopEntry (ctx : Ctx) (active : ActiveTimer) (now : Nat) : TimeEntry :=
  { boardId := ctx.boardId, cardId := ctx.cardId, cardName := ctx.cardName,
    listName := ctx.listName, memberId := ctx.memberId,
    memberName := ctx.memberName, startedAt := active.startedAt, endedAt := now,
    durationMs := (now : Int) - (active.startedAt : Int), labels := ctx.labels }

/-- `stopTimer(t)`: no-op without an active timer; else insert the completed
entry (on insert error: log and return, keeping the active timer), then
delete the active timer by id (the delete result is discarded). -/
def stopTimer (st : TimerState) (ctx : Ctx) (now : Nat)
    (insertErr deleteErr : Option DbErr) : Except DbErr (TimerState × List DbErr) :=
  match findActive st ctx with
  | none => .ok (st, [])
  | some active =>
    match insertErr with
    | some e => .ok (st, [e])
    | none =>
      let entries := st.timeEntries ++ [stopEntry ctx active now]
      match deleteErr with
      | some _ => .ok ({ st with timeEntries := entries }, [])
      | none =>
        .ok ({ timeEntries := entries,
               activeTimers := st.activeTimers.filter (fun a => !(a.id == active.id)) }, [])

/-- `toggleTimer(t)`: stop when running, else start; returns the
resulting `running` flag alongside. -/
def toggleTimer (st : TimerState) (ctx : Ctx) (now : Nat) (freshId : Nat)
    (insertErr deleteErr : Option DbErr) :
    Except DbErr ((TimerState × List DbErr) × Bool) :=
  match findActive st ctx with
  | some _ => (stopTimer st ctx now insertErr deleteErr).map (fun r => (r, false))
  | none => (startTimer st ctx now freshId insertErr).map (fun r => (r, true))

/-- `adjustTime(t, deltaMs, dateStr, targetMember)`: insert a `time_entries`
row with `started_at = ended_at` and `duration_ms = deltaMs`.  `dateNoon`
models `new Date(dateStr + 'T12:00:00')` — the instant of the given day at
noon — when a date string was supplied; otherwise the current instant is
used.  The target member is already folded into `ctx`. -/
def adjustTime (st : TimerState) (ctx : Ctx) (deltaMs : Int)
    (dateNoon : Option Nat) (now : Nat) (insertErr : Option DbErr) :
    Except DbErr (TimerState × List DbErr) :=
  let ts := dateNoon.getD now
  match insertErr with
  | some e => .ok (st, [e])
  | none =>
    .ok ({ st with timeEntries := st.timeEntries ++
      [{ boardId := ctx.boardId, cardId := ctx.cardId, cardName := ctx.cardName,
         listName := ctx.listName, memberId := ctx.memberId,
         memberName := ctx.memberName, startedAt := ts, endedAt := ts,
         durationMs := deltaMs, labels := ctx.labels }] }, [])

/-- `clearCardTime(t)`: delete all `time_entries` and `active_timers` rows of
one card (each delete's result is discarded; a failed delete leaves its
table untouched). -/
def clearCardTime (st : TimerState) (cardId : String)
    (delEntriesErr delTimersErr : Option DbErr) :
    Except DbErr (TimerState × List DbErr) :=
  let entries := if delEntriesErr.isSome then st.timeEntries
    else st.timeEntries.filter (fun e => !(e.cardId == cardId))
  let timers := if delTimersErr.isSome then st.activeTimers
    else st.activeTimers.filter (fun a => !(a.cardId == cardId))
  .ok ({ timeEntries := entries, activeTimers := timers }, [])

/-! ## Estimate store (`estimateStorage.js`) -/

/-- A row of the `time_estimates` table. -/
structure Estimate where
  id : Nat
  boardId : String
  cardId : String
  memberId : String
  memberName : String
  estimatedMs : Int
  updatedAt : Nat
deriving Repr, DecidableEq

/-- A row of the `estimate_history` table. -/
structure EstimateHistoryEntry where
  estimateId : Nat
  boardId : String
  cardId : String
  memberId : String
  memberName : String
  previousMs : Int
  newMs : Int
  reason : Option String
  changedAt : Nat
deriving Repr, DecidableEq

/-- The estimate store: both tables. -/
structure EstimateState where
  estimates : List Estimate
  history : List EstimateHistoryEntry
deriving Repr, DecidableEq

/-- Grace period in milliseconds (2 minutes). -/
def GRACE_PERIOD_MS : Nat := 2 * 60 * 1000

/-- The `time_estimates` row matching the context's `(card, member)` pair. -/
def findEstimate (st : EstimateState) (ctx : Ctx) : Option Estimate :=
  st.estimates.find? (fun e => e.cardId == ctx.cardId && e.memberId == ctx.memberId)

/-- `setEstimate(t, estimatedMs, targetMember, reason)`.

* Existing estimate, value changed, outside the grace window: insert a
  history row (`previous_ms` = stored value); the insert's result is
  discarded, so on failure the update still proceeds.
* Existing estimate (changed or not): update the row — `estimated_ms`,
  `member_name` and `updated_at` are rewritten unconditionally.
* No existing estimate: insert a new row.  Modelled from the spec: the
  insert payload carries no timestamps, the table defaults `updated_at`
  (and `created_at`) to the insertion instant `now`.

`now - existing.updatedAt` uses `Nat` subtraction: a clock that reads
earlier than `updatedAt` truncates to `0`, which is inside the grace window
exactly as the negative JS difference would be. -/
def setEstimate (st : EstimateState) (ctx : Ctx) (estimatedMs : Int)
    (reason : Option String) (now : Nat) (freshId : Nat)
    (histErr updErr insErr : Option DbErr) :
    Except DbErr (EstimateState × List DbErr) :=
  match findEstimate st ctx with
  | some existing =>
    let history :=
      if existing.estimatedMs ≠ estimatedMs then
        if ¬ (now - existing.updatedAt < GRACE_PERIOD_MS) then
          if histErr.isSome then st.history
          else st.history ++
            [{ estimateId := existing.id, boardId := ctx.boardId,
               cardId := ctx.cardId, memberId := ctx.memberId,
               memberName := ctx.memberName, previousMs := existing.estimatedMs,
               newMs := estimatedMs, reason := reason, changedAt := now }]
        else st.history
      else st.history
    match updErr with
    | some e => .ok ({ st with history := history }, [e])
    | none =>
      .ok ({ estimates := st.estimates.map (fun est =>
               if est.id = existing.id then
                 { est with
                   estimatedMs := estimatedMs,
                   memberName := ctx.memberName, updatedAt := now }
               else est),
             history := history }, [])
  | none =>
    match insErr with
    | some e => .ok (st, [e])
    | none =>
      .ok ({ st with estimates := st.estimates ++
        [{ id := freshId, boardId := ctx.boardId, cardId := ctx.cardId,
           memberId := ctx.memberId, memberName := ctx.memberName,
           estimatedMs := estimatedMs, updatedAt := now }] }, [])

/-! ## Board-level reports -/

/-- Live Trello data for one card (`cardInfoMap` values), assembled from
`t.cards(…)` and `t.lists(…)`. -/
structure CardInfo where
  name : String
  listName : String
  labels : List Label
deriving Repr, DecidableEq

/-- One member's entry in a report card's `timeData` object.
`activeTimerId` exists only in data produced by a newer storage layer;
`getBoardTimeReport` in `src/utils/storage.js` leaves it absent (`none`). -/
structure MemberTimeData where
  name : String
  totalMs : Int
  activeStart : Option Nat
  activeTimerId : Option String
deriving Repr, DecidableEq

/-- One value of `getBoardTimeReport`'s `cardMap`. -/
structure ReportCard where
  cardId : String
  cardName : String
  listName : String
  labels : List Label
  timeData : List (String × MemberTimeData)
deriving Repr, DecidableEq

/-- JS `o?.f || fallback` where the field is a string (empty string is
falsy). -/
def orElseStr (o : Option String) (fallback : String) : String :=
  match o with
  | some s => if s = "" then fallback else s
  | none => fallback

/-- The fresh `cardMap` value created when a completed entry's card is first
seen: live Trello data when available, stored data as fallback. -/
def reportCardFromEntry (cardInfoMap : List (String × CardInfo))
    (entry : TimeEntry) : ReportCard :=
  let live := lookupA entry.cardId cardInfoMap
  { cardId := entry.cardId,
    cardName := orElseStr (live.map (fun i => i.name)) entry.cardName,
    listName := orElseStr (live.map (fun i => i.listName)) entry.listName,
    labels := (live.map (fun i => i.labels)).getD [],
    timeData := [] }

/-- Processing one completed entry in `getBoardTimeReport`'s first loop. -/
def addEntryRow (cardInfoMap : List (String × CardInfo))
    (acc : List (String × ReportCard)) (entry : TimeEntry) :
    List (String × ReportCard) :=
  let acc1 := if (lookupA entry.cardId acc).isSome then acc
    else setA entry.cardId (reportCardFromEntry cardInfoMap entry) acc
  match lookupA entry.cardId acc1 with
  | none => acc1
  | some card =>
    let md := (lookupA entry.memberId card.timeData).getD
      { name := entry.memberName, totalMs := 0, activeStart := none,
        activeTimerId := none }
    let md1 := { md with totalMs := md.totalMs + entry.durationMs }
    setA entry.cardId
      { card with timeData := setA entry.memberId md1 card.timeData } acc1

/-- The fresh `cardMap` value created when an active timer's card is first
seen (stored fallbacks are `'(aktiv)'` and `''`). -/
def reportCardFromActive (cardInfoMap : List (String × CardInfo))
    (active : ActiveTimer) : ReportCard :=
  let live := lookupA active.cardId cardInfoMap
  { cardId := active.cardId,
    cardName := orElseStr (live.map (fun i => i.name)) "(aktiv)",
    listName := orElseStr (live.map (fun i => i.listName)) "",
    labels := (live.map (fun i => i.labels)).getD [],
    timeData := [] }

/-- Processing one active timer in `getBoardTimeReport`'s second loop. -/
def addActiveRow (cardInfoMap : List (String × CardInfo))
    (acc : List (String × ReportCard)) (active : ActiveTimer) :
    List (String × ReportCard) :=
  let acc1 := if (lookupA active.cardId acc).isSome then acc
    else setA active.cardId (reportCardFromActive cardInfoMap active) acc
  match lookupA active.cardId acc1 with
  | none => acc1
  | some card =>
    let md := (lookupA active.memberId card.timeData).getD
      { name := active.memberName, totalMs := 0, activeStart := none,
        activeTimerId := none }
    let md1 := { md with activeStart := some active.startedAt }
    setA active.cardId
      { card with timeData := setA active.memberId md1 card.timeData } acc1

/-- `getBoardTimeReport(t, filters)` from `src/utils/storage.js`.

The two Trello fetches are already folded into `cardInfoMap`.  The
`time_entries` query result (already date-filtered by the backend) is
destructured with its error, which is thrown (`if (error) throw error`).
The `active_timers` result discards the error field: on failure `data` is
`null` and `actives || []` degrades to the empty list. -/
def getBoardTimeReport (cardInfoMap : List (String × CardInfo))
    (entriesRes : Except DbErr (List TimeEntry))
    (activesRes : Except DbErr (List ActiveTimer)) :
    Except DbErr (List ReportCard) :=
  match entriesRes with
  | .error e => .error e
  | .ok entries =>
    let actives := match activesRes with | .ok l => l | .error _ => []
    let m1 := entries.foldl (addEntryRow cardInfoMap) []
    let m2 := actives.foldl (addActiveRow cardInfoMap) m1
    .ok (m2.map (fun p => p.2))

/-! ## Board-level estimate report (`getBoardEstimateReport`) -/

/-- One member's entry in an estimate-report card. -/
structure MemberEstimateData where
  name : String
  estimatedMs : Int
  originalMs : Option Int
  actualMs : Int
  activeStart : Option Nat
deriving Repr, DecidableEq

/-- One card of the estimate report. -/
structure EstimateCard where
  cardId : String
  cardName : String
  listName : String
  labels : List Label
  members : List (String × MemberEstimateData)
deriving Repr, DecidableEq

/-- `originalMap`: for each estimate id, the `previous_ms` of its earliest
history row (the rows arrive ordered by `changed_at` ascending; the first
one seen wins). -/
def buildOriginalMap (history : List EstimateHistoryEntry) :
    List (Nat × Int) :=
  history.foldl (fun acc h =>
    if (acc.find? (fun p => p.1 == h.estimateId)).isSome then acc
    else acc ++ [(h.estimateId, h.previousMs)]) []

/-- Lookup in `originalMap`. -/
def lookupOriginal (m : List (Nat × Int)) (id : Nat) : Option Int :=
  (m.find? (fun p => p.1 == id)).map (fun p => p.2)

/-- `getOrCreateCard` of `getBoardEstimateReport`. -/
def estCardFresh (cardInfoMap : List (String × CardInfo)) (cardId : String) :
    EstimateCard :=
  let live := lookupA cardId cardInfoMap
  { cardId := cardId,
    cardName := orElseStr (live.map (fun i => i.name)) cardId,
    listName := orElseStr (live.map (fun i => i.listName)) "",
    labels := (live.map (fun i => i.labels)).getD [],
    members := [] }

/-- `getOrCreateMember` of `getBoardEstimateReport`
(`name: memberName || memberId`). -/
def estMemberFresh (memberId memberName : String) : MemberEstimateData :=
  { name := if memberName = "" then memberId else memberName,
    estimatedMs := 0, originalMs := none, actualMs := 0, activeStart := none }

/-- Update one member inside one card of the estimate-report map, creating
card and member records on first sight. -/
def estUpdate (cardInfoMap : List (String × CardInfo))
    (acc : List (String × EstimateCard)) (cardId memberId memberName : String)
    (f : MemberEstimateData → MemberEstimateData) :
    List (String × EstimateCard) :=
  let acc1 := if (lookupA cardId acc).isSome then acc
    else setA cardId (estCardFresh cardInfoMap cardId) acc
  match lookupA cardId acc1 with
  | none => acc1
  | some card =>
    let md := (lookupA memberId card.members).getD (estMemberFresh memberId memberName)
    setA cardId { card with members := setA memberId (f md) card.members } acc1

/-- `getBoardEstimateReport(t, filters)` from the estimate storage module.

Fetch outcomes are passed in: the `time_estimates` and `time_entries`
results carry their errors (both are thrown), while the `estimate_history`
and `active_timers` results discard theirs (`data` degrades to `null`,
then `history || []` / `actives || []` to the empty list).  The history
fetch only happens when at least one estimate id exists. -/
def getBoardEstimateReport (cardInfoMap : List (String × CardInfo))
    (estimatesRes : Except DbErr (List Estimate))
    (historyRes : Except DbErr (List EstimateHistoryEntry))
    (entriesRes : Except DbErr (List TimeEntry))
    (activesRes : Except DbErr (List ActiveTimer)) :
    Except DbErr (List EstimateCard × List (String × CardInfo)) :=
  match estimatesRes with
  | .error e => .error e
  | .ok estimates =>
    let originalMap :=
      if estimates.isEmpty then []
      else buildOriginalMap (match historyRes with | .ok l => l | .error _ => [])
    match entriesRes with
    | .error e => .error e
    | .ok entries =>
      let actives := match activesRes with | .ok l => l | .error _ => []
      let m1 := estimates.foldl (fun acc est =>
        estUpdate cardInfoMap acc est.cardId est.memberId est.memberName
          (fun md => { md with
            estimatedMs := est.estimatedMs,
            originalMs := lookupOriginal originalMap est.id })) []
      let m2 := entries.foldl (fun acc entry =>
        estUpdate cardInfoMap acc entry.cardId entry.memberId entry.memberName
          (fun md => { md with actualMs := md.actualMs + entry.durationMs })) m1
      let m3 := actives.foldl (fun acc active =>
        estUpdate cardInfoMap acc active.cardId active.memberId active.memberName
          (fun md => { md with activeStart := some active.startedAt })) m2
      let cards := (m3.map (fun p => p.2)).filter (fun c =>
        c.members.any (fun p => p.2.estimatedMs > 0))
      .ok (cards, cardInfoMap)

/-! ## `src/utils/time.js` — live totals, and `ReportApp.jsx` aggregation -/

/-- `getTotalWithActive(memberData)` from `time.js`, with `Date.now()` as an
argument.  JS tests `if (memberData.activeStart)`, so an `activeStart` of
`0` (falsy) contributes nothing. -/
def getTotalWithActive (m : MemberTimeData) (now : Nat) : Int :=
  match m.activeStart with
  | some s => if s = 0 then m.totalMs else m.totalMs + ((now : Int) - (s : Int))
  | none => m.totalMs

/-- The `activeMember` reference built per (card, member) in `ReportApp`'s
aggregation loop (only when `mData.activeTimerId` is truthy). -/
structure ActiveMemberRef where
  timerId : String
  memberId : String
  memberName : String
  cardId : String
  cardName : String
deriving Repr, DecidableEq

/-- `mData.activeTimerId ? {…} : null`. -/
def activeMemberOf (card : ReportCard) (memberId : String)
    (mData : MemberTimeData) : Option ActiveMemberRef :=
  match mData.activeTimerId with
  | some tid =>
    if tid = "" then none
    else some { timerId := tid, memberId := memberId,
                memberName := if mData.name = "" then memberId else mData.name,
                cardId := card.cardId, cardName := card.cardName }
  | none => none

/-- One row of `ReportApp`'s `aggregated` array.  Fields that only some
grouping modes set are `Option`s. -/
structure AggRow where
  cardId : Option String
  label : String
  totalMs : Int
  sublabel : Option String
  color : Option String
  activeMembers : List ActiveMemberRef
deriving Repr, DecidableEq

/-- The three grouping modes of the report view. -/
inductive GroupBy
  | card
  | person
  | label
deriving Repr, DecidableEq

/-- The labels a card is fanned out to in label grouping: its own labels, or
the synthetic `Uten label` bucket when it has none. -/
def labelObjs (card : ReportCard) : List Label :=
  if card.labels.length > 0 then card.labels
  else [{ name := "Uten label", color := "gray" }]

/-- A label's aggregation key: `lbl.name || lbl.color`. -/
def keyOfLabel (l : Label) : String := if l.name = "" then l.color else l.name

/-- `map.get(key) || default`, bump `totalMs` by `ms`, push the active
member reference when present, `map.set(key, …)`.  All three grouping
branches of the aggregation loop share this shape. -/
def aggBump (key : String) (fresh : AggRow) (ms : Int)
    (activeMember : Option ActiveMemberRef) (acc : List (String × AggRow)) :
    List (String × AggRow) :=
  let existing := (lookupA key acc).getD fresh
  setA key { existing with
             totalMs := existing.totalMs + ms,
             activeMembers := existing.activeMembers ++ activeMember.toList } acc

/-- The fresh row for a card-grouped key. -/
def freshCardRow (card : ReportCard) : AggRow :=
  { cardId := some card.cardId, label := card.cardName, totalMs := 0,
    sublabel := some card.listName, color := none, activeMembers := [] }

/-- The fresh row for a person-grouped key (`label: mData.name || memberId`). -/
def freshPersonRow (memberId : String) (mData : MemberTimeData) : AggRow :=
  { cardId := none, label := if mData.name = "" then memberId else mData.name,
    totalMs := 0, sublabel := none, color := none, activeMembers := [] }

/-- The fresh row for a label-grouped key. -/
def freshLabelRow (lbl : Label) : AggRow :=
  { cardId := none, label := keyOfLabel lbl, totalMs := 0, sublabel := none,
    color := some lbl.color, activeMembers := [] }

/-- Processing one `(memberId, mData)` pair of one card in `ReportApp`'s
`aggregated` `useMemo` (the body of the double loop). -/
def aggMember (groupBy : GroupBy) (now : Nat) (card : ReportCard)
    (acc : List (String × AggRow)) (p : String × MemberTimeData) :
    List (String × AggRow) :=
  let memberId := p.1
  let mData := p.2
  let ms := getTotalWithActive mData now
  if ms = 0 then acc
  else
    let activeMember := activeMemberOf card memberId mData
    match groupBy with
    | .card => aggBump card.cardId (freshCardRow card) ms activeMember acc
    | .person => aggBump memberId (freshPersonRow memberId mData) ms activeMember acc
    | .label =>
      (labelObjs card).foldl (fun acc lbl =>
        aggBump (keyOfLabel lbl) (freshLabelRow lbl) ms activeMember acc) acc

/-- The aggregation `Map` after both loops. -/
def aggMap (reportData : List ReportCard) (groupBy : GroupBy) (now : Nat) :
    List (String × AggRow) :=
  reportData.foldl (fun acc card =>
    card.timeData.foldl (aggMember groupBy now card) acc) []

/-- `ReportApp`'s `aggregated` rows (`Array.from(map.values())`), before the
final in-place sort (the sort only permutes rows — by `totalMs` or by
locale-aware label compare — and is not modelled). -/
def aggregated (reportData : List ReportCard) (groupBy : GroupBy) (now : Nat) :
    List AggRow :=
  (aggMap reportData groupBy now).map (fun p => p.2)

/-- `grandTotal`: the sum of all aggregated rows' `totalMs`. -/
def grandTotal (rows : List AggRow) : Int :=
  (rows.map (fun r => r.totalMs)).sum

/-- The `totalMs` accumulated for key `k` in an aggregation map (0 when the
key has no row). -/
def rowTotal (rows : List (String × AggRow)) (k : String) : Int :=
  match lookupA k rows with
  | some r => r.totalMs
  | none => 0

/-- The label keys a card fans out to. -/
def labelKeys (card : ReportCard) : List String :=
  (labelObjs card).map keyOfLabel

/-- Follows the spec's words: under label grouping every card contributes
its full live duration (per member, skipping zero totals) once for every
occurrence of the key among its labels — or to the `Uten label` bucket when
it has none. -/
def labelFanOutTotal (reportData : List ReportCard) (now : Nat) (k : String) :
    Int :=
  (reportData.map (fun card =>
    (card.timeData.map (fun p =>
      let ms := getTotalWithActive p.2 now
      if ms = 0 then 0 else ((labelKeys card).count k : Int) * ms)).sum)).sum

/-! ## `EstimateApp.jsx` — accuracy metric -/

/-- The unclamped-then-clamped accuracy value
`Math.max(0, 100 - Math.abs(actual / estimated - 1) * 100)`. -/
def accValue (estimated actual : ℚ) : ℚ :=
  max 0 (100 - |actual / estimated - 1| * 100)

/-- `accuracyScore(estimated, actual)` from `EstimateApp.jsx`
(`!estimated` on a number is `estimated = 0`). -/
def accuracyScore (estimated actual : ℚ) : Option ℚ :=
  if estimated = 0 then none else some (accValue estimated actual)

/-! ## Reachable timer-store states

Sequential executions of the timer-store write operations, from an empty
store, with arbitrary contexts, instants, fresh ids and backend write
outcomes. -/

/-- Reachability by `storage.js` timer operations. -/
inductive ReachTimer : TimerState → Prop
  | init : ReachTimer { timeEntries := [], activeTimers := [] }
  | startStep {st : TimerState} {ctx : Ctx} {now freshId : Nat}
      {ie : Option DbErr} {s' : TimerState} {log : List DbErr} :
      ReachTimer st → startTimer st ctx now freshId ie = .ok (s', log) →
      ReachTimer s'
  | stopStep {st : TimerState} {ctx : Ctx} {now : Nat}
      {ie de : Option DbErr} {s' : TimerState} {log : List DbErr} :
      ReachTimer st → stopTimer st ctx now ie de = .ok (s', log) →
      ReachTimer s'
  | toggleStep {st : TimerState} {ctx : Ctx} {now freshId : Nat}
      {ie de : Option DbErr} {s' : TimerState} {log : List DbErr} {b : Bool} :
      ReachTimer st → toggleTimer st ctx now freshId ie de = .ok ((s', log), b) →
      ReachTimer s'
  | adjustStep {st : TimerState} {ctx : Ctx} {deltaMs : Int}
      {dateNoon : Option Nat} {now : Nat} {ie : Option DbErr}
      {s' : TimerState} {log : List DbErr} :
      ReachTimer st → adjustTime st ctx deltaMs dateNoon now ie = .ok (s', log) →
      ReachTimer s'
  | clearStep {st : TimerState} {cardId : String} {de1 de2 : Option DbErr}
      {s' : TimerState} {log : List DbErr} :
      ReachTimer st → clearCardTime st cardId de1 de2 = .ok (s', log) →
      ReachTimer s'

/-- Number of active timers for one `(card, member)` pair. -/
def pairCount (st : TimerState) (c m : String) : Nat :=
  st.activeTimers.countP (fun a => a.cardId == c && a.memberId == m)

/-- The completed entries stored for one `(card, member)` pair. -/
def pairEntries (st : TimerState) (c m : String) : List TimeEntry :=
  st.timeEntries.filter (fun e => e.cardId == c && e.memberId == m)

/-! ## Concrete fixtures used by witnesses and counterexamples -/

/-- A concrete Power-Up context. -/
def ctx0 : Ctx :=
  { boardId := "b1", cardId := "c1", cardName := "Card one",
    listName := "Doing", memberId := "m1", memberName := "Ann", labels := [] }

/-- A concrete stored estimate for `ctx0`'s pair. -/
def est0 : Estimate :=
  { id := 1, boardId := "b1", cardId := "c1", memberId := "m1",
    memberName := "Ann", estimatedMs := 1000, updatedAt := 0 }

/-- A concrete active timer for `ctx0`'s pair. -/
def timer0 : ActiveTimer :=
  { id := 5, boardId := "b1", cardId := "c1", memberId := "m1",
    memberName := "Ann", startedAt := 100 }

/-- A concrete completed entry on another card. -/
def entry0 : TimeEntry :=
  { boardId := "b1", cardId := "c2", cardName := "Card two",
    listName := "Done", memberId := "m1", memberName := "Ann",
    startedAt := 0, endedAt := 60000, durationMs := 60000, labels := [] }

/-- A report card with two labels and 60 minutes of completed time for one
member. -/
def exCard : ReportCard :=
  { cardId := "c1", cardName := "Card one", listName := "Doing",
    labels := [{ name := "Rød", color := "red" },
               { name := "Blå", color := "blue" }],
    timeData := [("m1", { name := "Ann", totalMs := 3600000,
                          activeStart := none, activeTimerId := none })] }

/-- Report data consisting of `exCard` alone. -/
def exData : List ReportCard := [exCard]

/-! ## Theorems

First, concrete sanity checks that the embedded duration functions compute
as the originals do. -/

example : formatDuration 3723000 false = ['1', 't', ' ', '2', 'm', ' ', '3', 's'] := by decide

example : formatDuration 0 false = ['0', 'm', ' ', '0', 's'] := by decide

example : parseDuration (formatDuration 3723456 false) = 3723000 := by decide

example : parseDuration (formatDuration 3600000 false) = 3600000 := by decide

example : parseDuration (formatDuration 3630000 false) = 3630000 := by decide

example : parseDuration (formatDuration 500 false) = 0 := by decide

example : parseDuration (formatDuration 59000 false) = 59000 := by decide

/-! ### C8 — accuracy score bounds -/

/-- C8: for every `estimatedMs > 0` the accuracy score lies in `[0, 100]`
and equals `100` exactly when `actualMs = estimatedMs`; for
`estimatedMs = 0` the score is `null`. -/
theorem accuracy_bounds :
    (∀ estimated actual : ℚ, 0 < estimated →
      accuracyScore estimated actual = some (accValue estimated actual) ∧
      0 ≤ accValue estimated actual ∧ accValue estimated actual ≤ 100 ∧
      (accValue estimated actual = 100 ↔ actual = estimated)) ∧
    (∀ actual : ℚ, accuracyScore 0 actual = none) := by
  constructor
  · intro e a he
    have hne : e ≠ 0 := ne_of_gt he
    refine ⟨by simp [accuracyScore, hne], le_max_left _ _, ?_, ?_⟩
    · have h0 : (0 : ℚ) ≤ |a / e - 1| * 100 := by positivity
      exact max_le (by norm_num) (by linarith)
    · unfold accValue
      constructor
      · intro h
        rcases max_choice (0 : ℚ) (100 - |a / e - 1| * 100) with hm | hm
        · rw [hm] at h; norm_num at h
        · rw [hm] at h
          have h0 : (0 : ℚ) ≤ |a / e - 1| := abs_nonneg _
          have habs : |a / e - 1| = 0 := by linarith
          have hdiv : a / e = 1 := by
            have := abs_eq_zero.mp habs
            linarith
          field_simp at hdiv
          exact hdiv
      · intro h
        rw [h, div_self hne]
        norm_num
  · intro a
    simp [accuracyScore]

/-- Witness for C8 at `estimated = 2`, `actual = 3` and `estimated = 0`. -/
theorem accuracy_bounds_witness :
    (accuracyScore 2 3 = some (accValue 2 3) ∧ 0 ≤ accValue 2 3 ∧
      accValue 2 3 ≤ 100 ∧ (accValue 2 3 = 100 ↔ (3 : ℚ) = 2)) ∧
    accuracyScore 0 5 = none :=
  ⟨accuracy_bounds.1 2 3 (by norm_num), accuracy_bounds.2 5⟩

/-! ### C9 — manual adjustments -/

/-- C9: `adjustTime` inserts one completed entry with
`startedAt = endedAt = date-at-noon-or-now` and `durationMs = deltaMs`
exactly (negative deltas permitted, no flooring), and stored per-pair sums
can therefore become negative. -/
theorem adjust_time_inserts_delta :
    (∀ (st : TimerState) (ctx : Ctx) (deltaMs : Int) (dateNoon : Option Nat)
       (now : Nat),
      adjustTime st ctx deltaMs dateNoon now none =
        .ok ({ st with timeEntries := st.timeEntries ++
          [{ boardId := ctx.boardId, cardId := ctx.cardId,
             cardName := ctx.cardName, listName := ctx.listName,
             memberId := ctx.memberId, memberName := ctx.memberName,
             startedAt := dateNoon.getD now, endedAt := dateNoon.getD now,
             durationMs := deltaMs, labels := ctx.labels }] }, [])) ∧
    (∃ st : TimerState, ReachTimer st ∧
      ((pairEntries st "c1" "m1").map (fun e => e.durationMs)).sum < 0) := by
  constructor
  · intro st ctx deltaMs dateNoon now
    rfl
  · refine ⟨{ timeEntries := [{ boardId := "b1", cardId := "c1",
                                cardName := "Card one", listName := "Doing",
                                memberId := "m1", memberName := "Ann",
                                startedAt := 1000, endedAt := 1000,
                                durationMs := -5000, labels := [] }],
              activeTimers := [] }, ?_, by decide⟩
    exact @ReachTimer.adjustStep ⟨[], []⟩ ctx0 (-5000) none 1000 none _ _
      ReachTimer.init rfl

/-! ### C6 — write operations and backend errors

The claim says write operations surface backing-store errors to their
caller.  The code logs every write error with `console.error` (or discards
it) and resolves normally, so the claim fails; the counterexample shows a
failed `startTimer` insert resolving with `.ok`. -/

/-- C6 counterexample: `startTimer` with a failing insert resolves normally
(`.ok`, state unchanged) and only logs the error to the console — nothing
reaches the caller. -/
theorem start_timer_swallows_insert_error :
    startTimer { timeEntries := [], activeTimers := [] } ctx0 100 1
      (some "db down") =
    .ok ({ timeEntries := [], activeTimers := [] }, ["db down"]) := by
  rfl

/-- C6 amended: every write operation resolves normally whatever the
backend reports; a reported write error is passed to `console.error` (or,
for `stopTimer`'s delete, discarded), never to the caller. -/
theorem writes_log_and_resolve :
    (∀ (st : TimerState) (ctx : Ctx) (now freshId : Nat) (ie : Option DbErr),
      ∃ r, startTimer st ctx now freshId ie = .ok r) ∧
    (∀ (st : TimerState) (ctx : Ctx) (now : Nat) (ie de : Option DbErr),
      ∃ r, stopTimer st ctx now ie de = .ok r) ∧
    (∀ (st : TimerState) (ctx : Ctx) (deltaMs : Int) (dateNoon : Option Nat)
       (now : Nat) (ie : Option DbErr),
      ∃ r, adjustTime st ctx deltaMs dateNoon now ie = .ok r) ∧
    (∀ (st : EstimateState) (ctx : Ctx) (v : Int) (reason : Option String)
       (now freshId : Nat) (he ue ins : Option DbErr),
      ∃ r, setEstimate st ctx v reason now freshId he ue ins = .ok r) ∧
    (∀ (st : TimerState) (ctx : Ctx) (now freshId : Nat) (e : DbErr),
      findActive st ctx = none →
      startTimer st ctx now freshId (some e) = .ok (st, [e])) ∧
    (∀ (st : TimerState) (ctx : Ctx) (deltaMs : Int) (dateNoon : Option Nat)
       (now : Nat) (e : DbErr),
      adjustTime st ctx deltaMs dateNoon now (some e) = .ok (st, [e])) := by
  refine ⟨?_, ?_, ?_, ?_, ?_, ?_⟩
  · intro st ctx now freshId ie
    unfold startTimer
    cases findActive st ctx <;> cases ie <;> exact ⟨_, rfl⟩
  · intro st ctx now ie de
    unfold stopTimer
    cases findActive st ctx <;> cases ie <;> cases de <;> exact ⟨_, rfl⟩
  · intro st ctx deltaMs dateNoon now ie
    unfold adjustTime
    cases ie <;> exact ⟨_, rfl⟩
  · intro st ctx v reason now freshId he ue ins
    unfold setEstimate
    cases findEstimate st ctx <;> [cases ins; cases ue] <;> exact ⟨_, rfl⟩
  · intro st ctx now freshId e hnone
    unfold startTimer
    rw [hnone]
  · intro st ctx deltaMs dateNoon now e
    rfl

/-- Witness for C6 at concrete inputs. -/
theorem writes_log_and_resolve_witness :
    (∃ r, startTimer { timeEntries := [], activeTimers := [] } ctx0 7 1
      (some "x") = .ok r) ∧
    startTimer { timeEntries := [], activeTimers := [] } ctx0 7 1 (some "x") =
      .ok ({ timeEntries := [], activeTimers := [] }, ["x"]) ∧
    adjustTime { timeEntries := [], activeTimers := [] } ctx0 100 none 7
      (some "y") = .ok ({ timeEntries := [], activeTimers := [] }, ["y"]) :=
  ⟨writes_log_and_resolve.1 _ ctx0 7 1 (some "x"),
   writes_log_and_resolve.2.2.2.2.1 _ ctx0 7 1 "x" (by decide),
   writes_log_and_resolve.2.2.2.2.2 _ ctx0 100 none 7 "y"⟩

/-! ### C2 — `setEstimate` with an unchanged value

The claim says an unchanged value is a complete no-op, `updatedAt`
included.  In the code the equality check only guards the history insert;
the `update` (which rewrites `estimated_ms`, `member_name` and bumps
`updated_at`) runs unconditionally whenever an estimate exists. -/

/-- C2 counterexample: setting the stored value again (`1000`) at `now = 500`
bumps the estimate's `updatedAt` from `0` to `500` — the row is *not* left
unchanged (no history entry is inserted, though). -/
theorem equal_set_bumps_update_time :
    setEstimate { estimates := [est0], history := [] } ctx0 1000 none 500 9
        none none none =
      .ok ({ estimates := [{ est0 with updatedAt := 500 }],
             history := [] }, []) ∧
    ({ est0 with updatedAt := 500 } : Estimate) ≠ est0 := by
  constructor
  · rfl
  · decide

/-- C2 amended: when the stored value equals the new value, no history
entry is inserted, but the Estimate row is still updated — `estimatedMs`
and `memberName` are rewritten and `updatedAt` is bumped to `now`. -/
theorem equal_set_no_history_but_update :
    ∀ (st : EstimateState) (ctx : Ctx) (v : Int) (reason : Option String)
      (now freshId : Nat) (ex : Estimate),
      findEstimate st ctx = some ex → ex.estimatedMs = v →
      setEstimate st ctx v reason now freshId none none none =
        .ok ({ estimates := st.estimates.map (fun est =>
                 if est.id = ex.id then
                   { est with
                     estimatedMs := v, memberName := ctx.memberName,
                     updatedAt := now }
                 else est),
               history := st.history }, []) := by
  intro st ctx v reason now freshId ex hfind hv
  unfold setEstimate
  rw [hfind]
  simp [hv]

/-- Witness for C2's amended theorem at a concrete store. -/
theorem equal_set_no_history_but_update_witness :
    setEstimate { estimates := [est0], history := [] } ctx0 1000 none 500 9
        none none none =
      .ok ({ estimates := [est0].map (fun est =>
               if est.id = est0.id then
                 { est with
                   estimatedMs := 1000, memberName := ctx0.memberName,
                   updatedAt := 500 }
               else est),
             history := [] }, []) :=
  equal_set_no_history_but_update ⟨[est0], []⟩ ctx0 1000 none 500 9 est0
    (by decide) (by decide)

/-! ### C3 — `stopTimer` behaviour -/

/-- C3: `stopTimer` is a no-op without an active timer; with one it inserts
exactly one completed entry spanning `[startedAt, now]` with
`durationMs = now - startedAt` and deletes the active timer; if the insert
fails the active timer is kept and the state is entirely unchanged (no
interval lost or double-counted). -/
theorem stop_timer_correct :
    (∀ (st : TimerState) (ctx : Ctx) (now : Nat) (ie de : Option DbErr),
      findActive st ctx = none → stopTimer st ctx now ie de = .ok (st, [])) ∧
    (∀ (st : TimerState) (ctx : Ctx) (now : Nat) (a : ActiveTimer),
      findActive st ctx = some a →
      stopTimer st ctx now none none =
        .ok ({ timeEntries := st.timeEntries ++ [stopEntry ctx a now],
               activeTimers :=
                 st.activeTimers.filter (fun x => !(x.id == a.id)) }, []) ∧
      (stopEntry ctx a now).startedAt = a.startedAt ∧
      (stopEntry ctx a now).endedAt = now ∧
      (stopEntry ctx a now).durationMs = (now : Int) - (a.startedAt : Int) ∧
      a ∉ st.activeTimers.filter (fun x => !(x.id == a.id)) ∧
      (∀ x ∈ st.activeTimers, x.id ≠ a.id →
        x ∈ st.activeTimers.filter (fun x => !(x.id == a.id)))) ∧
    (∀ (st : TimerState) (ctx : Ctx) (now : Nat) (a : ActiveTimer)
       (e : DbErr) (de : Option DbErr),
      findActive st ctx = some a →
      stopTimer st ctx now (some e) de = .ok (st, [e])) := by
  refine ⟨?_, ?_, ?_⟩
  · intro st ctx now ie de hnone
    unfold stopTimer
    rw [hnone]
  · intro st ctx now a hfind
    refine ⟨?_, rfl, rfl, rfl, ?_, ?_⟩
    · unfold stopTimer
      rw [hfind]
    · intro hmem
      rcases List.mem_filter.mp hmem with ⟨-, hpred⟩
      simp at hpred
    · intro x hx hne
      exact List.mem_filter.mpr ⟨hx, by simp [hne]⟩
  · intro st ctx now a e de hfind
    unfold stopTimer
    rw [hfind]

/-- Witness for C3 at a concrete store holding one active timer. -/
theorem stop_timer_correct_witness :
    stopTimer { timeEntries := [], activeTimers := [] } ctx0 200 none none =
      .ok ({ timeEntries := [], activeTimers := [] }, []) ∧
    stopTimer { timeEntries := [], activeTimers := [timer0] } ctx0 250
        none none =
      .ok ({ timeEntries := [] ++ [stopEntry ctx0 timer0 250],
             activeTimers :=
               [timer0].filter (fun x => !(x.id == timer0.id)) }, []) ∧
    stopTimer { timeEntries := [], activeTimers := [timer0] } ctx0 250
        (some "db down") none =
      .ok ({ timeEntries := [], activeTimers := [timer0] }, ["db down"]) :=
  ⟨stop_timer_correct.1 ⟨[], []⟩ ctx0 200 none none (by decide),
   (stop_timer_correct.2.1 ⟨[], [timer0]⟩ ctx0 250 timer0 (by decide)).1,
   stop_timer_correct.2.2 ⟨[], [timer0]⟩ ctx0 250 timer0 "db down" none
     (by decide)⟩

/-! ### C1 — the estimate grace period -/

/-- C1: for an existing estimate with value `v ≠ w` last updated at `u`, a
`setEstimate` at `n` logs a history row (`previousMs = v`, `newMs = w`)
exactly when `n - u ≥ 2` minutes, and overwrites in place with no history
row when `n - u < 2` minutes; in the `T0`, `T0+90s`, `T0+90s+3min`
scenario, exactly one history row results, with `previousMs` equal to the
value set at `T0+90s`. -/
theorem estimate_grace_period :
    (∀ (st : EstimateState) (ctx : Ctx) (w : Int) (reason : Option String)
       (now freshId : Nat) (ex : Estimate),
       findEstimate st ctx = some ex → ex.estimatedMs ≠ w →
       setEstimate st ctx w reason now freshId none none none =
         .ok ({ estimates := st.estimates.map (fun est =>
                  if est.id = ex.id then
                    { est with
                      estimatedMs := w, memberName := ctx.memberName,
                      updatedAt := now }
                  else est),
                history :=
                  if now - ex.updatedAt < GRACE_PERIOD_MS then st.history
                  else st.history ++
                    [{ estimateId := ex.id, boardId := ctx.boardId,
                       cardId := ctx.cardId, memberId := ctx.memberId,
                       memberName := ctx.memberName,
                       previousMs := ex.estimatedMs, newMs := w,
                       reason := reason, changedAt := now }] }, [])) ∧
    (∀ (ctx : Ctx) (T0 : Nat) (v1 v2 v3 : Int) (r1 r2 r3 : Option String)
       (id1 : Nat) (s2 s3 : EstimateState) (l2 l3 : List DbErr),
       v1 ≠ v2 → v2 ≠ v3 →
       setEstimate { estimates := [{ id := id1, boardId := ctx.boardId,
                                     cardId := ctx.cardId,
                                     memberId := ctx.memberId,
                                     memberName := ctx.memberName,
                                     estimatedMs := v1, updatedAt := T0 }],
                     history := [] } ctx v2 r2 (T0 + 90000) id1
           none none none = .ok (s2, l2) →
       setEstimate s2 ctx v3 r3 (T0 + 90000 + 180000) id1
           none none none = .ok (s3, l3) →
       setEstimate { estimates := [], history := [] } ctx v1 r1 T0 id1
           none none none =
         .ok ({ estimates := [{ id := id1, boardId := ctx.boardId,
                                cardId := ctx.cardId,
                                memberId := ctx.memberId,
                                memberName := ctx.memberName,
                                estimatedMs := v1, updatedAt := T0 }],
                history := [] }, []) ∧
       s2.history = [] ∧
       s3.history = [{ estimateId := id1, boardId := ctx.boardId,
                       cardId := ctx.cardId, memberId := ctx.memberId,
                       memberName := ctx.memberName, previousMs := v2,
                       newMs := v3, reason := r3,
                       changedAt := T0 + 90000 + 180000 }]) := by
  have hgen : ∀ (st : EstimateState) (ctx : Ctx) (w : Int)
      (reason : Option String) (now freshId : Nat) (ex : Estimate),
      findEstimate st ctx = some ex → ex.estimatedMs ≠ w →
      setEstimate st ctx w reason now freshId none none none =
        .ok ({ estimates := st.estimates.map (fun est =>
                 if est.id = ex.id then
                   { est with
                     estimatedMs := w, memberName := ctx.memberName,
                     updatedAt := now }
                 else est),
               history :=
                 if now - ex.updatedAt < GRACE_PERIOD_MS then st.history
                 else st.history ++
                   [{ estimateId := ex.id, boardId := ctx.boardId,
                      cardId := ctx.cardId, memberId := ctx.memberId,
                      memberName := ctx.memberName,
                      previousMs := ex.estimatedMs, newMs := w,
                      reason := reason, changedAt := now }] }, []) := by
    intro st ctx w reason now freshId ex hfind hne
    unfold setEstimate
    rw [hfind]
    by_cases hg : now - ex.updatedAt < GRACE_PERIOD_MS <;> simp [hne, hg]
  refine ⟨hgen, ?_⟩
  intro ctx T0 v1 v2 v3 r1 r2 r3 id1 s2 s3 l2 l3 hv12 hv23 h2 h3
  have harith1 : (90000 : Nat) < GRACE_PERIOD_MS := by decide
  have harith2 : GRACE_PERIOD_MS ≤ 180000 := by decide
  have h2c : setEstimate { estimates := [{ id := id1, boardId := ctx.boardId,
                                           cardId := ctx.cardId,
                                           memberId := ctx.memberId,
                                           memberName := ctx.memberName,
                                           estimatedMs := v1,
                                           updatedAt := T0 }],
                           history := [] } ctx v2 r2 (T0 + 90000) id1
      none none none =
      .ok ({ estimates := [{ id := id1, boardId := ctx.boardId,
                             cardId := ctx.cardId, memberId := ctx.memberId,
                             memberName := ctx.memberName,
                             estimatedMs := v2, updatedAt := T0 + 90000 }],
             history := [] }, []) := by
    rw [hgen _ ctx v2 r2 (T0 + 90000) id1
      { id := id1, boardId := ctx.boardId, cardId := ctx.cardId,
        memberId := ctx.memberId, memberName := ctx.memberName,
        estimatedMs := v1, updatedAt := T0 }
      (by simp [findEstimate]) (by simpa using hv12)]
    simp [harith1]
  rw [h2c] at h2
  injection h2 with hpair
  injection hpair with hs2 hl2
  subst hs2
  have h3c : setEstimate { estimates := [{ id := id1, boardId := ctx.boardId,
                                           cardId := ctx.cardId,
                                           memberId := ctx.memberId,
                                           memberName := ctx.memberName,
                                           estimatedMs := v2,
                                           updatedAt := T0 + 90000 }],
                           history := [] } ctx v3 r3 (T0 + 90000 + 180000) id1
      none none none =
      .ok ({ estimates := [{ id := id1, boardId := ctx.boardId,
                             cardId := ctx.cardId, memberId := ctx.memberId,
                             memberName := ctx.memberName,
                             estimatedMs := v3,
                             updatedAt := T0 + 90000 + 180000 }],
             history := [{ estimateId := id1, boardId := ctx.boardId,
                           cardId := ctx.cardId, memberId := ctx.memberId,
                           memberName := ctx.memberName, previousMs := v2,
                           newMs := v3, reason := r3,
                           changedAt := T0 + 90000 + 180000 }] }, []) := by
    rw [hgen _ ctx v3 r3 (T0 + 90000 + 180000) id1
      { id := id1, boardId := ctx.boardId, cardId := ctx.cardId,
        memberId := ctx.memberId, memberName := ctx.memberName,
        estimatedMs := v2, updatedAt := T0 + 90000 }
      (by simp [findEstimate]) (by simpa using hv23)]
    simp [harith2]
  rw [h3c] at h3
  injection h3 with hpair3
  injection hpair3 with hs3 hl3
  subst hs3
  exact ⟨rfl, rfl, rfl⟩

/-- Witness for C1: a concrete re-estimation outside the grace window, and
the `T0 = 1000` instance of the three-call scenario. -/
theorem estimate_grace_period_witness :
    (setEstimate { estimates := [est0], history := [] } ctx0 2000 none 200000 9
        none none none =
      .ok ({ estimates := [est0].map (fun est =>
               if est.id = est0.id then
                 { est with
                   estimatedMs := 2000, memberName := ctx0.memberName,
                   updatedAt := 200000 }
               else est),
             history :=
               if 200000 - est0.updatedAt < GRACE_PERIOD_MS then []
               else [] ++
                 [{ estimateId := est0.id, boardId := ctx0.boardId,
                    cardId := ctx0.cardId, memberId := ctx0.memberId,
                    memberName := ctx0.memberName,
                    previousMs := est0.estimatedMs, newMs := 2000,
                    reason := none, changedAt := 200000 }] }, [])) ∧
    (setEstimate { estimates := [], history := [] } ctx0 1 none 1000 7
        none none none =
      .ok ({ estimates := [{ id := 7, boardId := ctx0.boardId,
                             cardId := ctx0.cardId, memberId := ctx0.memberId,
                             memberName := ctx0.memberName,
                             estimatedMs := 1, updatedAt := 1000 }],
             history := [] }, []) ∧
     (({ estimates := [{ id := 7, boardId := "b1", cardId := "c1",
                         memberId := "m1", memberName := "Ann",
                         estimatedMs := 2, updatedAt := 91000 }],
         history := [] } : EstimateState)).history = [] ∧
     (({ estimates := [{ id := 7, boardId := "b1", cardId := "c1",
                         memberId := "m1", memberName := "Ann",
                         estimatedMs := 3, updatedAt := 271000 }],
         history := [{ estimateId := 7, boardId := "b1", cardId := "c1",
                       memberId := "m1", memberName := "Ann",
                       previousMs := 2, newMs := 3, reason := none,
                       changedAt := 271000 }] } : EstimateState)).history =
       [{ estimateId := 7, boardId := ctx0.boardId, cardId := ctx0.cardId,
          memberId := ctx0.memberId, memberName := ctx0.memberName,
          previousMs := 2, newMs := 3, reason := none,
          changedAt := 1000 + 90000 + 180000 }]) :=
  ⟨estimate_grace_period.1 ⟨[est0], []⟩ ctx0 2000 none 200000 9 est0
     (by decide) (by decide),
   estimate_grace_period.2 ctx0 1000 1 2 3 none none none 7
     { estimates := [{ id := 7, boardId := "b1", cardId := "c1",
                       memberId := "m1", memberName := "Ann",
                       estimatedMs := 2, updatedAt := 91000 }],
       history := [] }
     { estimates := [{ id := 7, boardId := "b1", cardId := "c1",
                       memberId := "m1", memberName := "Ann",
                       estimatedMs := 3, updatedAt := 271000 }],
       history := [{ estimateId := 7, boardId := "b1", cardId := "c1",
                     memberId := "m1", memberName := "Ann",
                     previousMs := 2, newMs := 3, reason := none,
                     changedAt := 271000 }] }
     [] [] (by decide) (by decide) (by rfl) (by rfl)⟩

/-! ### C5 — report failure semantics

The claim says a failure of *any* upstream fetch aborts the whole report.
Only the `time_entries` fetch (time report) and the `time_estimates` /
`time_entries` fetches (estimate report) are thrown; a failing
`active_timers` or `estimate_history` fetch degrades silently to an empty
list, and the report is still returned. -/

/-- C5 counterexample: with a failing `active_timers` fetch the time report
still resolves (with the active-timer data silently missing), and with a
failing `estimate_history` fetch the estimate report still resolves — no
abort, contrary to the claim. -/
theorem report_swallows_actives_error :
    getBoardTimeReport [] (.ok [entry0]) (.error "db down") =
      .ok [{ cardId := "c2", cardName := "Card two", listName := "Done",
             labels := [],
             timeData := [("m1", { name := "Ann", totalMs := 60000,
                                   activeStart := none,
                                   activeTimerId := none })] }] ∧
    getBoardEstimateReport [] (.ok [est0]) (.error "db down") (.ok [])
        (.ok []) =
      .ok ([{ cardId := "c1", cardName := "c1", listName := "",
              labels := [],
              members := [("m1", { name := "Ann", estimatedMs := 1000,
                                   originalMs := none, actualMs := 0,
                                   activeStart := none })] }], []) := by
  constructor
  · rfl
  · rfl

/-- C5 amended: a failing `time_entries` fetch aborts the time report with
the error, and failing `time_estimates` / `time_entries` fetches abort the
estimate report; failing `active_timers` / `estimate_history` fetches are
silently replaced by empty result sets. -/
theorem report_error_semantics :
    (∀ (ci : List (String × CardInfo)) (ar : Except DbErr (List ActiveTimer))
       (e : DbErr), getBoardTimeReport ci (.error e) ar = .error e) ∧
    (∀ (ci : List (String × CardInfo)) (entries : List TimeEntry) (e : DbErr),
       getBoardTimeReport ci (.ok entries) (.error e) =
         getBoardTimeReport ci (.ok entries) (.ok [])) ∧
    (∀ (ci : List (String × CardInfo))
       (hr : Except DbErr (List EstimateHistoryEntry))
       (er : Except DbErr (List TimeEntry))
       (ar : Except DbErr (List ActiveTimer)) (e : DbErr),
       getBoardEstimateReport ci (.error e) hr er ar = .error e) ∧
    (∀ (ci : List (String × CardInfo)) (ests : List Estimate)
       (hr : Except DbErr (List EstimateHistoryEntry))
       (ar : Except DbErr (List ActiveTimer)) (e : DbErr),
       getBoardEstimateReport ci (.ok ests) hr (.error e) ar = .error e) ∧
    (∀ (ci : List (String × CardInfo)) (ests : List Estimate)
       (er : Except DbErr (List TimeEntry))
       (ar : Except DbErr (List ActiveTimer)) (e : DbErr),
       getBoardEstimateReport ci (.ok ests) (.error e) er ar =
         getBoardEstimateReport ci (.ok ests) (.ok []) er ar) ∧
    (∀ (ci : List (String × CardInfo)) (ests : List Estimate)
       (hr : Except DbErr (List EstimateHistoryEntry))
       (entries : List TimeEntry) (e : DbErr),
       getBoardEstimateReport ci (.ok ests) hr (.ok entries) (.error e) =
         getBoardEstimateReport ci (.ok ests) hr (.ok entries) (.ok [])) := by
  refine ⟨?_, ?_, ?_, ?_, ?_, ?_⟩
  · intro ci ar e
    rfl
  · intro ci entries e
    rfl
  · intro ci hr er ar e
    rfl
  · intro ci ests hr ar e
    rfl
  · intro ci ests er ar e
    rfl
  · intro ci ests hr entries e
    rfl

/-! ### C4 — at most one active timer per pair -/

/-- No active timer for the pair is found exactly when the pair's count is
zero. -/
theorem findActive_none_iff (st : TimerState) (ctx : Ctx) :
    findActive st ctx = none ↔ pairCount st ctx.cardId ctx.memberId = 0 := by
  unfold findActive pairCount
  rw [List.find?_eq_none, List.countP_eq_zero]

/-- `find?` skips a prefix in which nothing matches. -/
theorem find?_append_none {α : Type} (p : α → Bool) {l₁ : List α}
    (h : l₁.find? p = none) (l₂ : List α) :
    (l₁ ++ l₂).find? p = l₂.find? p := by
  induction l₁ with
  | nil => rfl
  | cons a t ih =>
    cases hpa : p a with
    | true => simp [List.find?_cons, hpa] at h
    | false =>
      rw [List.find?_cons_of_neg _ (by simp [hpa])] at h
      rw [List.cons_append, List.find?_cons_of_neg _ (by simp [hpa])]
      exact ih h

/-- `startTimer` preserves "at most one active timer per pair". -/
theorem startTimer_pairCount {st : TimerState} {ctx : Ctx} {now freshId : Nat}
    {ie : Option DbErr} {s' : TimerState} {log : List DbErr}
    (h : startTimer st ctx now freshId ie = .ok (s', log)) (c m : String)
    (hle : pairCount st c m ≤ 1) : pairCount s' c m ≤ 1 := by
  unfold startTimer at h
  cases hfind : findActive st ctx with
  | some a =>
    rw [hfind] at h
    injection h with hp
    injection hp with hs hl
    subst hs
    exact hle
  | none =>
    rw [hfind] at h
    cases ie with
    | some e =>
      injection h with hp
      injection hp with hs hl
      subst hs
      exact hle
    | none =>
      injection h with hp
      injection hp with hs hl
      subst hs
      unfold pairCount
      rw [List.countP_append]
      by_cases hcm : ctx.cardId = c ∧ ctx.memberId = m
      · obtain ⟨rfl, rfl⟩ := hcm
        have h0 : pairCount st ctx.cardId ctx.memberId = 0 :=
          (findActive_none_iff st ctx).mp hfind
        unfold pairCount at h0
        simp [h0, List.countP_cons]
      · have hz : List.countP
            (fun a : ActiveTimer => a.cardId == c && a.memberId == m)
            ([{ id := freshId, boardId := ctx.boardId, cardId := ctx.cardId,
                memberId := ctx.memberId, memberName := ctx.memberName,
                startedAt := now }] : List ActiveTimer) = 0 := by
          simp only [List.countP_cons, List.countP_nil]
          simp only [Bool.and_eq_true, beq_iff_eq]
          rw [if_neg hcm]
        unfold pairCount at hle
        omega

/-- `stopTimer` preserves "at most one active timer per pair". -/
theorem stopTimer_pairCount {st : TimerState} {ctx : Ctx} {now : Nat}
    {ie de : Option DbErr} {s' : TimerState} {log : List DbErr}
    (h : stopTimer st ctx now ie de = .ok (s', log)) (c m : String)
    (hle : pairCount st c m ≤ 1) : pairCount s' c m ≤ 1 := by
  unfold stopTimer at h
  cases hfind : findActive st ctx with
  | none =>
    rw [hfind] at h
    injection h with hp
    injection hp with hs hl
    subst hs
    exact hle
  | some a =>
    rw [hfind] at h
    cases ie with
    | some e =>
      injection h with hp
      injection hp with hs hl
      subst hs
      exact hle
    | none =>
      cases de with
      | some e =>
        injection h with hp
        injection hp with hs hl
        subst hs
        exact hle
      | none =>
        injection h with hp
        injection hp with hs hl
        subst hs
        unfold pairCount
        exact le_trans
          ((List.filter_sublist _).countP_le _) hle

/-- `toggleTimer` preserves "at most one active timer per pair". -/
theorem toggleTimer_pairCount {st : TimerState} {ctx : Ctx}
    {now freshId : Nat} {ie de : Option DbErr} {s' : TimerState}
    {log : List DbErr} {b : Bool}
    (h : toggleTimer st ctx now freshId ie de = .ok ((s', log), b))
    (c m : String) (hle : pairCount st c m ≤ 1) : pairCount s' c m ≤ 1 := by
  unfold toggleTimer at h
  cases hfind : findActive st ctx with
  | some a =>
    rw [hfind] at h
    cases hstop : stopTimer st ctx now ie de with
    | error e => rw [hstop] at h; exact absurd h (by simp [Except.map])
    | ok r =>
      rcases r with ⟨rs, rl⟩
      rw [hstop] at h
      simp only [Except.map, Except.ok.injEq, Prod.mk.injEq] at h
      obtain ⟨⟨hs, hl⟩, hb⟩ := h
      subst hs
      exact stopTimer_pairCount hstop c m hle
  | none =>
    rw [hfind] at h
    cases hstart : startTimer st ctx now freshId ie with
    | error e => rw [hstart] at h; exact absurd h (by simp [Except.map])
    | ok r =>
      rcases r with ⟨rs, rl⟩
      rw [hstart] at h
      simp only [Except.map, Except.ok.injEq, Prod.mk.injEq] at h
      obtain ⟨⟨hs, hl⟩, hb⟩ := h
      subst hs
      exact startTimer_pairCount hstart c m hle

/-- `adjustTime` does not touch active timers. -/
theorem adjustTime_pairCount {st : TimerState} {ctx : Ctx} {deltaMs : Int}
    {dateNoon : Option Nat} {now : Nat} {ie : Option DbErr}
    {s' : TimerState} {log : List DbErr}
    (h : adjustTime st ctx deltaMs dateNoon now ie = .ok (s', log))
    (c m : String) (hle : pairCount st c m ≤ 1) : pairCount s' c m ≤ 1 := by
  unfold adjustTime at h
  cases ie with
  | some e =>
    injection h with hp
    injection hp with hs hl
    subst hs
    exact hle
  | none =>
    injection h with hp
    injection hp with hs hl
    subst hs
    exact hle

/-- `clearCardTime` only removes active timers. -/
theorem clearCardTime_pairCount {st : TimerState} {cardId : String}
    {de1 de2 : Option DbErr} {s' : TimerState} {log : List DbErr}
    (h : clearCardTime st cardId de1 de2 = .ok (s', log)) (c m : String)
    (hle : pairCount st c m ≤ 1) : pairCount s' c m ≤ 1 := by
  unfold clearCardTime at h
  injection h with hp
  injection hp with hs hl
  subst hs
  unfold pairCount
  cases de2 <;> simp only [Option.isSome]
  · exact le_trans ((List.filter_sublist _).countP_le _) hle
  · exact hle

/-- Every reachable timer-store state has at most one active timer per
`(card, member)` pair. -/
theorem reachTimer_pairCount_le :
    ∀ st, ReachTimer st → ∀ c m, pairCount st c m ≤ 1 := by
  intro st h
  induction h with
  | init => intro c m; simp [pairCount]
  | startStep hre heq ih => intro c m; exact startTimer_pairCount heq c m (ih c m)
  | stopStep hre heq ih => intro c m; exact stopTimer_pairCount heq c m (ih c m)
  | toggleStep hre heq ih => intro c m; exact toggleTimer_pairCount heq c m (ih c m)
  | adjustStep hre heq ih => intro c m; exact adjustTime_pairCount heq c m (ih c m)
  | clearStep hre heq ih => intro c m; exact clearCardTime_pairCount heq c m (ih c m)

/-- C4: every reachable state has at most one active timer per
`(card, member)` pair; starting twice in a row yields exactly one active
timer, and a single stop then yields exactly one completed entry spanning
the original start to the stop time. -/
theorem active_timer_invariant :
    (∀ st, ReachTimer st → ∀ c m, pairCount st c m ≤ 1) ∧
    (∀ (st : TimerState) (ctx : Ctx) (t1 t2 t3 fid1 fid2 : Nat)
       (s1 s2 s3 : TimerState) (l1 l2 l3 : List DbErr),
       pairCount st ctx.cardId ctx.memberId = 0 →
       startTimer st ctx t1 fid1 none = .ok (s1, l1) →
       startTimer s1 ctx t2 fid2 none = .ok (s2, l2) →
       stopTimer s2 ctx t3 none none = .ok (s3, l3) →
       pairCount s1 ctx.cardId ctx.memberId = 1 ∧
       pairCount s2 ctx.cardId ctx.memberId = 1 ∧
       pairCount s3 ctx.cardId ctx.memberId = 0 ∧
       pairEntries s3 ctx.cardId ctx.memberId =
         pairEntries st ctx.cardId ctx.memberId ++
           [stopEntry ctx
             { id := fid1, boardId := ctx.boardId, cardId := ctx.cardId,
               memberId := ctx.memberId, memberName := ctx.memberName,
               startedAt := t1 } t3]) := by
  refine ⟨reachTimer_pairCount_le, ?_⟩
  intro st ctx t1 t2 t3 fid1 fid2 s1 s2 s3 l1 l2 l3 h0 h1 h2 h3
  have hfind0 : findActive st ctx = none := (findActive_none_iff st ctx).mpr h0
  unfold startTimer at h1
  rw [hfind0] at h1
  injection h1 with hp1
  injection hp1 with hs1 hl1
  subst hs1
  have hT1 : (fun a : ActiveTimer =>
      a.cardId == ctx.cardId && a.memberId == ctx.memberId)
      { id := fid1, boardId := ctx.boardId, cardId := ctx.cardId,
        memberId := ctx.memberId, memberName := ctx.memberName,
        startedAt := t1 } = true := by simp
  have hfind1 : findActive
      { st with activeTimers := st.activeTimers ++
        [{ id := fid1, boardId := ctx.boardId, cardId := ctx.cardId,
           memberId := ctx.memberId, memberName := ctx.memberName,
           startedAt := t1 }] } ctx =
      some { id := fid1, boardId := ctx.boardId, cardId := ctx.cardId,
             memberId := ctx.memberId, memberName := ctx.memberName,
             startedAt := t1 } := by
    unfold findActive at hfind0 ⊢
    rw [find?_append_none _ hfind0]
    simp [List.find?_cons, hT1]
  unfold startTimer at h2
  rw [hfind1] at h2
  injection h2 with hp2
  injection hp2 with hs2 hl2
  subst hs2
  unfold stopTimer at h3
  rw [hfind1] at h3
  injection h3 with hp3
  injection hp3 with hs3 hl3
  subst hs3
  have hcount1 : pairCount
      { st with activeTimers := st.activeTimers ++
        [{ id := fid1, boardId := ctx.boardId, cardId := ctx.cardId,
           memberId := ctx.memberId, memberName := ctx.memberName,
           startedAt := t1 }] } ctx.cardId ctx.memberId = 1 := by
    unfold pairCount at h0 ⊢
    rw [List.countP_append, h0]
    simp [List.countP_cons]
  refine ⟨hcount1, hcount1, ?_, ?_⟩
  · unfold pairCount at h0 ⊢
    dsimp only
    simp only [List.filter_append]
    rw [List.countP_append]
    have hz1 : (st.activeTimers.filter (fun x => !(x.id == fid1))).countP
        (fun a => a.cardId == ctx.cardId && a.memberId == ctx.memberId) = 0 := by
      have hsub : (st.activeTimers.filter
          (fun x => !(x.id == fid1))).Sublist st.activeTimers :=
        List.filter_sublist _
      have hle := hsub.countP_le
        (fun a : ActiveTimer =>
          a.cardId == ctx.cardId && a.memberId == ctx.memberId)
      omega
    have hz2 : (List.filter (fun x : ActiveTimer => !(x.id == fid1))
        [{ id := fid1, boardId := ctx.boardId, cardId := ctx.cardId,
           memberId := ctx.memberId, memberName := ctx.memberName,
           startedAt := t1 }]).countP
        (fun a => a.cardId == ctx.cardId && a.memberId == ctx.memberId) = 0 := by
      simp
    omega
  · unfold pairEntries
    dsimp only
    simp only [List.filter_append]
    congr 1
    simp [stopEntry]

/-- Witness for C4: the invariant at the (reachable) empty store, and the
start-start-stop scenario at `t1 = 10`, `t2 = 20`, `t3 = 30`. -/
theorem active_timer_invariant_witness :
    pairCount { timeEntries := [], activeTimers := [] } "c1" "m1" ≤ 1 ∧
    (pairCount { timeEntries := [],
                 activeTimers := [{ id := 1, boardId := "b1", cardId := "c1",
                                    memberId := "m1", memberName := "Ann",
                                    startedAt := 10 }] }
        ctx0.cardId ctx0.memberId = 1 ∧
     pairCount { timeEntries := [],
                 activeTimers := [{ id := 1, boardId := "b1", cardId := "c1",
                                    memberId := "m1", memberName := "Ann",
                                    startedAt := 10 }] }
        ctx0.cardId ctx0.memberId = 1 ∧
     pairCount { timeEntries := [stopEntry ctx0
                   { id := 1, boardId := "b1", cardId := "c1",
                     memberId := "m1", memberName := "Ann",
                     startedAt := 10 } 30],
                 activeTimers := [] } ctx0.cardId ctx0.memberId = 0 ∧
     pairEntries { timeEntries := [stopEntry ctx0
                     { id := 1, boardId := "b1", cardId := "c1",
                       memberId := "m1", memberName := "Ann",
                       startedAt := 10 } 30],
                   activeTimers := [] } ctx0.cardId ctx0.memberId =
       pairEntries { timeEntries := [], activeTimers := [] }
           ctx0.cardId ctx0.memberId ++
         [stopEntry ctx0
           { id := 1, boardId := ctx0.boardId, cardId := ctx0.cardId,
             memberId := ctx0.memberId, memberName := ctx0.memberName,
             startedAt := 10 } 30]) :=
  ⟨active_timer_invariant.1 ⟨[], []⟩ ReachTimer.init "c1" "m1",
   active_timer_invariant.2 ⟨[], []⟩ ctx0 10 20 30 1 2
     ⟨[], [{ id := 1, boardId := "b1", cardId := "c1", memberId := "m1",
             memberName := "Ann", startedAt := 10 }]⟩
     ⟨[], [{ id := 1, boardId := "b1", cardId := "c1", memberId := "m1",
             memberName := "Ann", startedAt := 10 }]⟩
     ⟨[stopEntry ctx0 { id := 1, boardId := "b1", cardId := "c1",
                        memberId := "m1", memberName := "Ann",
                        startedAt := 10 } 30], []⟩
     [] [] [] (by decide) (by rfl) (by rfl) (by rfl)⟩

/-! ### C7 — label fan-out in the aggregation -/

/-- Looking up the key just set. -/
theorem lookupA_setA_self {α : Type} (k : String) (v : α)
    (l : List (String × α)) : lookupA k (setA k v l) = some v := by
  induction l with
  | nil => simp [setA, lookupA]
  | cons p r ih =>
    rcases p with ⟨k', v'⟩
    by_cases hk : k' = k
    · simp [setA, lookupA, hk]
    · simp [setA, lookupA, hk, ih]

/-- Setting another key does not change a lookup. -/
theorem lookupA_setA_ne {α : Type} {k key : String} (h : k ≠ key) (v : α)
    (l : List (String × α)) : lookupA k (setA key v l) = lookupA k l := by
  have h' : ¬ (key = k) := fun hh => h hh.symm
  induction l with
  | nil => simp [setA, lookupA, h']
  | cons p r ih =>
    rcases p with ⟨k', v'⟩
    by_cases hk : k' = key
    · subst hk
      simp [setA, lookupA, h']
    · simp [setA, lookupA, hk, ih]

/-- One `aggBump` adds `ms` to the bumped key's total and nothing to any
other key (fresh rows start at zero). -/
theorem rowTotal_aggBump (key : String) (fresh : AggRow) (ms : Int)
    (am : Option ActiveMemberRef) (acc : List (String × AggRow))
    (hf : fresh.totalMs = 0) (k : String) :
    rowTotal (aggBump key fresh ms am acc) k =
      rowTotal acc k + (if k = key then ms else 0) := by
  unfold aggBump rowTotal
  by_cases hk : k = key
  · subst hk
    rw [lookupA_setA_self]
    cases hlk : lookupA k acc with
    | none => simp [hlk, hf]
    | some r => simp [hlk]
  · rw [lookupA_setA_ne hk]
    simp [hk]

/-- Folding one member's `ms` over a label list adds
`count k · ms` to key `k`. -/
theorem rowTotal_labels_foldl (L : List Label) (ms : Int)
    (am : Option ActiveMemberRef) (acc : List (String × AggRow)) (k : String) :
    rowTotal (L.foldl (fun acc lbl =>
        aggBump (keyOfLabel lbl) (freshLabelRow lbl) ms am acc) acc) k =
      rowTotal acc k + ((L.map keyOfLabel).count k : Int) * ms := by
  induction L generalizing acc with
  | nil => simp
  | cons lbl L ih =>
    simp only [List.foldl_cons]
    rw [ih, rowTotal_aggBump _ _ _ _ _ rfl]
    by_cases hk : k = keyOfLabel lbl
    · subst hk
      rw [List.map_cons, List.count_cons_self, if_pos rfl]
      push_cast
      ring
    · have hb : (keyOfLabel lbl == k) = false :=
        beq_eq_false_iff_ne.mpr fun hh => hk hh.symm
      rw [List.map_cons, List.count_cons, hb, if_neg hk]
      simp only [Bool.false_eq_true, if_false]
      push_cast
      ring

/-- Folding one card's member loop (label grouping) adds each member's
fanned-out contribution. -/
theorem rowTotal_members_foldl (card : ReportCard) (now : Nat)
    (td : List (String × MemberTimeData)) (acc : List (String × AggRow))
    (k : String) :
    rowTotal (td.foldl (aggMember GroupBy.label now card) acc) k =
      rowTotal acc k +
        (td.map (fun p =>
          let ms := getTotalWithActive p.2 now
          if ms = 0 then 0
          else ((labelKeys card).count k : Int) * ms)).sum := by
  induction td generalizing acc with
  | nil => simp
  | cons p td ih =>
    simp only [List.foldl_cons, List.map_cons, List.sum_cons]
    rw [ih]
    by_cases hms : getTotalWithActive p.2 now = 0
    · simp only [aggMember]
      rw [if_pos hms, if_pos hms]
      ring
    · simp only [aggMember, if_neg hms]
      rw [rowTotal_labels_foldl]
      unfold labelKeys
      ring

/-- The `aggregated` map under label grouping realises the spec's fan-out
sum for every key. -/
theorem rowTotal_aggMap_label (data : List ReportCard) (now : Nat)
    (k : String) :
    rowTotal (aggMap data GroupBy.label now) k = labelFanOutTotal data now k := by
  suffices h : ∀ acc, rowTotal (data.foldl (fun acc card =>
      card.timeData.foldl (aggMember GroupBy.label now card) acc) acc) k =
      rowTotal acc k + labelFanOutTotal data now k by
    have h0 := h []
    simpa [aggMap, rowTotal, lookupA] using h0
  induction data with
  | nil => intro acc; simp [labelFanOutTotal]
  | cons card data ih =>
    intro acc
    simp only [List.foldl_cons]
    rw [ih, rowTotal_members_foldl]
    unfold labelFanOutTotal
    simp only [List.map_cons, List.sum_cons]
    ring

/-- C7: under label grouping every card's members contribute their full
live duration once per occurrence of a key among the card's labels (the
fan-out sum); a card with zero labels goes to the synthetic `Uten label`
bucket; and on `exCard` (two labels, 60 min) each label row gets the full
60 minutes, so the label-grouped grand total (120 min) exceeds the
card-grouped grand total (60 min). -/
theorem label_fanout :
    (∀ (data : List ReportCard) (now : Nat) (k : String),
      rowTotal (aggMap data GroupBy.label now) k =
        labelFanOutTotal data now k) ∧
    (∀ card : ReportCard, card.labels = [] →
      labelKeys card = ["Uten label"]) ∧
    (rowTotal (aggMap exData GroupBy.label 0) "Rød" = 3600000 ∧
     rowTotal (aggMap exData GroupBy.label 0) "Blå" = 3600000 ∧
     grandTotal (aggregated exData GroupBy.label 0) = 7200000 ∧
     grandTotal (aggregated exData GroupBy.card 0) = 3600000 ∧
     grandTotal (aggregated exData GroupBy.card 0) <
       grandTotal (aggregated exData GroupBy.label 0)) := by
  refine ⟨rowTotal_aggMap_label, ?_, ?_⟩
  · intro card h
    unfold labelKeys labelObjs
    rw [h]
    rfl
  · exact ⟨by decide, by decide, by decide, by decide, by decide⟩

/-- Witness for C7: the unlabeled bucket at a concrete zero-label card, and
the fan-out characterisation at the concrete example data. -/
theorem label_fanout_witness :
    labelKeys { cardId := "c9", cardName := "Nameless", listName := "",
                labels := [], timeData := [] } = ["Uten label"] ∧
    rowTotal (aggMap exData GroupBy.label 0) "Rød" =
      labelFanOutTotal exData 0 "Rød" :=
  ⟨label_fanout.2.1 _ rfl, label_fanout.1 exData 0 "Rød"⟩

/-! ### C10 — format/parse round trip -/

/-- `digitChar` produces a digit character. -/
theorem digitChar_isDigit (d : Nat) (h : d < 10) :
    (digitChar d).isDigit = true := by
  interval_cases d <;> decide

/-- `digitChar` and its numeric value. -/
theorem digitChar_toNat (d : Nat) (h : d < 10) :
    (digitChar d).toNat - 48 = d := by
  interval_cases d <;> decide

/-- Digit characters are not units or spaces. -/
theorem digitChar_not_special (d : Nat) (h : d < 10) :
    isHourUnit (digitChar d) = false ∧ isMinuteUnit (digitChar d) = false ∧
    isSecondUnit (digitChar d) = false ∧ (digitChar d == ' ') = false := by
  interval_cases d <;> exact ⟨rfl, rfl, rfl, rfl⟩

/-- Every character of the decimal printout is a digit. -/
theorem natToCharsAux_digits :
    ∀ fuel n, n < fuel → ∀ c ∈ natToCharsAux fuel n, c.isDigit = true := by
  intro fuel
  induction fuel with
  | zero => intro n hn; omega
  | succ fuel ih =>
    intro n hn c hc
    unfold natToCharsAux at hc
    by_cases h10 : n < 10
    · rw [if_pos h10] at hc
      simp only [List.mem_singleton] at hc
      subst hc
      exact digitChar_isDigit n h10
    · rw [if_neg h10] at hc
      rcases List.mem_append.mp hc with h | h
      · exact ih (n / 10) (by omega) c h
      · simp only [List.mem_singleton] at h
        subst h
        exact digitChar_isDigit (n % 10) (by omega)

/-- The decimal printout is nonempty. -/
theorem natToCharsAux_ne_nil :
    ∀ fuel n, n < fuel → natToCharsAux fuel n ≠ [] := by
  intro fuel
  cases fuel with
  | zero => intro n hn; omega
  | succ fuel =>
    intro n hn
    unfold natToCharsAux
    by_cases h10 : n < 10
    · rw [if_pos h10]
      simp
    · rw [if_neg h10]
      simp

/-- Appending one character to a digit run. -/
theorem digitRunVal_append_singleton (l : List Char) (c : Char) :
    digitRunVal (l ++ [c]) = digitRunVal l * 10 + (c.toNat - 48) := by
  unfold digitRunVal
  rw [List.foldl_append]
  rfl

/-- Parsing the decimal printout recovers the number. -/
theorem digitRunVal_natToCharsAux :
    ∀ fuel n, n < fuel → digitRunVal (natToCharsAux fuel n) = n := by
  intro fuel
  induction fuel with
  | zero => intro n hn; omega
  | succ fuel ih =>
    intro n hn
    unfold natToCharsAux
    by_cases h10 : n < 10
    · rw [if_pos h10]
      show 0 * 10 + ((digitChar n).toNat - 48) = n
      rw [digitChar_toNat n h10]
      omega
    · rw [if_neg h10]
      rw [digitRunVal_append_singleton, ih (n / 10) (by omega),
        digitChar_toNat (n % 10) (by omega)]
      omega

/-- `natToChars` facts, packaged. -/
theorem natToChars_digits (n : Nat) :
    ∀ c ∈ natToChars n, c.isDigit = true :=
  natToCharsAux_digits (n + 1) n (by omega)

/-- The decimal printout of any number is nonempty. -/
theorem natToChars_ne_nil (n : Nat) : natToChars n ≠ [] :=
  natToCharsAux_ne_nil (n + 1) n (by omega)

/-- Round trip for the decimal printout. -/
theorem digitRunVal_natToChars (n : Nat) : digitRunVal (natToChars n) = n :=
  digitRunVal_natToCharsAux (n + 1) n (by omega)

/-- `takeWhile isDigit` stops exactly at the first non-digit. -/
theorem takeWhile_digits_append {ds : List Char}
    (hds : ∀ c ∈ ds, c.isDigit = true) {u : Char} (hu : u.isDigit = false)
    (rest : List Char) :
    (ds ++ u :: rest).takeWhile Char.isDigit = ds := by
  induction ds with
  | nil => simp [List.takeWhile_cons, hu]
  | cons c ds ih =>
    have hc : c.isDigit = true := hds c (by simp)
    rw [List.cons_append, List.takeWhile_cons, hc]
    simp only [if_true]
    rw [ih (fun x hx => hds x (by simp [hx]))]

/-- `dropWhile isDigit` drops exactly the digit prefix. -/
theorem dropWhile_digits_append {ds : List Char}
    (hds : ∀ c ∈ ds, c.isDigit = true) {u : Char} (hu : u.isDigit = false)
    (rest : List Char) :
    (ds ++ u :: rest).dropWhile Char.isDigit = u :: rest := by
  induction ds with
  | nil => simp [List.dropWhile_cons, hu]
  | cons c ds ih =>
    have hc : c.isDigit = true := hds c (by simp)
    rw [List.cons_append, List.dropWhile_cons, hc]
    simp only [if_true]
    exact ih (fun x hx => hds x (by simp [hx]))

/-- One-step unfolding of the scanner. -/
theorem scanUnit_cons (isU : Char → Bool) (c : Char) (cs : List Char) :
    scanUnit isU (c :: cs) =
      if c.isDigit then
        match ((c :: cs).dropWhile Char.isDigit).dropWhile
            (fun x => x == ' ') with
        | u :: _ =>
          if isU u then some (digitRunVal ((c :: cs).takeWhile Char.isDigit))
          else scanUnit isU cs
        | [] => scanUnit isU cs
      else scanUnit isU cs := rfl

/-- The scanner skips a leading non-digit. -/
theorem scanUnit_cons_nondigit (isU : Char → Bool) {c : Char}
    (h : c.isDigit = false) (cs : List Char) :
    scanUnit isU (c :: cs) = scanUnit isU cs := by
  rw [scanUnit_cons, h]
  simp

/-- The scanner skips a digit run followed by a letter that is not the
sought unit. -/
theorem scanUnit_skip {isU : Char → Bool} {ds : List Char}
    (hds : ∀ c ∈ ds, c.isDigit = true) {u : Char} (hud : u.isDigit = false)
    (hus : (u == ' ') = false) (huU : isU u = false) (rest : List Char) :
    scanUnit isU (ds ++ u :: rest) = scanUnit isU rest := by
  induction ds with
  | nil =>
    rw [List.nil_append]
    exact scanUnit_cons_nondigit isU hud rest
  | cons c ds ih =>
    have hc : c.isDigit = true := hds c (by simp)
    have hds' : ∀ x ∈ ds, x.isDigit = true := fun x hx => hds x (by simp [hx])
    have hscrut : ((c :: (ds ++ u :: rest)).dropWhile Char.isDigit).dropWhile
        (fun x => x == ' ') = u :: rest := by
      rw [List.dropWhile_cons, hc]
      simp only [if_true]
      rw [dropWhile_digits_append hds' hud rest, List.dropWhile_cons, hus]
      simp
    rw [List.cons_append, scanUnit_cons, hc, hscrut]
    simp only [if_true, huU, Bool.false_eq_true, if_false]
    exact ih hds'

/-- The scanner finds a digit run directly followed by the sought unit and
captures its full value. -/
theorem scanUnit_found {isU : Char → Bool} {ds : List Char} (hne : ds ≠ [])
    (hds : ∀ c ∈ ds, c.isDigit = true) {u : Char} (huU : isU u = true)
    (hud : u.isDigit = false) (hus : (u == ' ') = false) (rest : List Char) :
    scanUnit isU (ds ++ u :: rest) = some (digitRunVal ds) := by
  rcases ds with _ | ⟨c, ds⟩
  · exact absurd rfl hne
  have hc : c.isDigit = true := hds c (by simp)
  have hds' : ∀ x ∈ ds, x.isDigit = true := fun x hx => hds x (by simp [hx])
  have hscrut : ((c :: (ds ++ u :: rest)).dropWhile Char.isDigit).dropWhile
      (fun x => x == ' ') = u :: rest := by
    rw [List.dropWhile_cons, hc]
    simp only [if_true]
    rw [dropWhile_digits_append hds' hud rest, List.dropWhile_cons, hus]
    simp
  have htake : (c :: (ds ++ u :: rest)).takeWhile Char.isDigit = c :: ds := by
    rw [List.takeWhile_cons, hc]
    simp only [if_true]
    rw [takeWhile_digits_append hds' hud rest]
  rw [List.cons_append, scanUnit_cons, hc, hscrut, htake]
  simp [huU]

/-- Character facts for the unit letter `'t'`. -/
theorem hourU_t : isHourUnit 't' = true := by decide

/-- `'t'` is not a minute unit. -/
theorem minU_t : isMinuteUnit 't' = false := by decide

/-- `'t'` is not a second unit. -/
theorem secU_t : isSecondUnit 't' = false := by decide

/-- `'t'` is not a digit. -/
theorem digit_t : Char.isDigit 't' = false := by decide

/-- `'t'` is not a space. -/
theorem space_t : ('t' == ' ') = false := by decide

/-- `'m'` is the minute unit. -/
theorem minU_m : isMinuteUnit 'm' = true := by decide

/-- `'m'` is not an hour unit. -/
theorem hourU_m : isHourUnit 'm' = false := by decide

/-- `'m'` is not a second unit. -/
theorem secU_m : isSecondUnit 'm' = false := by decide

/-- `'m'` is not a digit. -/
theorem digit_m : Char.isDigit 'm' = false := by decide

/-- `'m'` is not a space. -/
theorem space_m : ('m' == ' ') = false := by decide

/-- `'s'` is the second unit. -/
theorem secU_s : isSecondUnit 's' = true := by decide

/-- `'s'` is not an hour unit. -/
theorem hourU_s : isHourUnit 's' = false := by decide

/-- `'s'` is not a minute unit. -/
theorem minU_s : isMinuteUnit 's' = false := by decide

/-- `'s'` is not a digit. -/
theorem digit_s : Char.isDigit 's' = false := by decide

/-- `'s'` is not a space. -/
theorem space_s : ('s' == ' ') = false := by decide

/-- A space is not a digit. -/
theorem digit_space : Char.isDigit ' ' = false := by decide

/-- Parsing the shape `"Ht Mm Ss"`. -/
theorem parse_shape_tms (h m s : Nat) :
    parseDuration (natToChars h ++ 't' :: ' ' ::
      (natToChars m ++ 'm' :: ' ' :: (natToChars s ++ ['s']))) =
      h * 3600000 + m * 60000 + s * 1000 := by
  unfold parseDuration
  rw [scanUnit_found (natToChars_ne_nil h) (natToChars_digits h) hourU_t
        digit_t space_t,
      scanUnit_skip (natToChars_digits h) digit_t space_t minU_t,
      scanUnit_cons_nondigit isMinuteUnit digit_space,
      scanUnit_found (natToChars_ne_nil m) (natToChars_digits m) minU_m
        digit_m space_m,
      scanUnit_skip (natToChars_digits h) digit_t space_t secU_t,
      scanUnit_cons_nondigit isSecondUnit digit_space,
      scanUnit_skip (natToChars_digits m) digit_m space_m secU_m,
      scanUnit_cons_nondigit isSecondUnit digit_space,
      scanUnit_found (natToChars_ne_nil s) (natToChars_digits s) secU_s
        digit_s space_s,
      digitRunVal_natToChars, digitRunVal_natToChars, digitRunVal_natToChars]

/-- Parsing the shape `"Ht Mm"`. -/
theorem parse_shape_tm (h m : Nat) :
    parseDuration (natToChars h ++ 't' :: ' ' :: (natToChars m ++ ['m'])) =
      h * 3600000 + m * 60000 := by
  unfold parseDuration
  rw [scanUnit_found (natToChars_ne_nil h) (natToChars_digits h) hourU_t
        digit_t space_t,
      scanUnit_skip (natToChars_digits h) digit_t space_t minU_t,
      scanUnit_cons_nondigit isMinuteUnit digit_space,
      scanUnit_found (natToChars_ne_nil m) (natToChars_digits m) minU_m
        digit_m space_m,
      scanUnit_skip (natToChars_digits h) digit_t space_t secU_t,
      scanUnit_cons_nondigit isSecondUnit digit_space,
      scanUnit_skip (natToChars_digits m) digit_m space_m secU_m,
      digitRunVal_natToChars, digitRunVal_natToChars]
  simp [scanUnit]

/-- Parsing the shape `"Ht Ss"`. -/
theorem parse_shape_ts (h s : Nat) :
    parseDuration (natToChars h ++ 't' :: ' ' :: (natToChars s ++ ['s'])) =
      h * 3600000 + s * 1000 := by
  unfold parseDuration
  rw [scanUnit_found (natToChars_ne_nil h) (natToChars_digits h) hourU_t
        digit_t space_t,
      scanUnit_skip (natToChars_digits h) digit_t space_t minU_t,
      scanUnit_cons_nondigit isMinuteUnit digit_space,
      scanUnit_skip (natToChars_digits s) digit_s space_s minU_s,
      scanUnit_skip (natToChars_digits h) digit_t space_t secU_t,
      scanUnit_cons_nondigit isSecondUnit digit_space,
      scanUnit_found (natToChars_ne_nil s) (natToChars_digits s) secU_s
        digit_s space_s,
      digitRunVal_natToChars, digitRunVal_natToChars]
  simp [scanUnit]

/-- Parsing the shape `"Ht"`. -/
theorem parse_shape_t (h : Nat) :
    parseDuration (natToChars h ++ ['t']) = h * 3600000 := by
  unfold parseDuration
  rw [scanUnit_found (natToChars_ne_nil h) (natToChars_digits h) hourU_t
        digit_t space_t,
      scanUnit_skip (natToChars_digits h) digit_t space_t minU_t,
      scanUnit_skip (natToChars_digits h) digit_t space_t secU_t,
      digitRunVal_natToChars]
  simp [scanUnit]

/-- Parsing the shape `"Mm Ss"`. -/
theorem parse_shape_ms (m s : Nat) :
    parseDuration (natToChars m ++ 'm' :: ' ' :: (natToChars s ++ ['s'])) =
      m * 60000 + s * 1000 := by
  unfold parseDuration
  rw [scanUnit_skip (natToChars_digits m) digit_m space_m hourU_m,
      scanUnit_cons_nondigit isHourUnit digit_space,
      scanUnit_skip (natToChars_digits s) digit_s space_s hourU_s,
      scanUnit_found (natToChars_ne_nil m) (natToChars_digits m) minU_m
        digit_m space_m,
      scanUnit_skip (natToChars_digits m) digit_m space_m secU_m,
      scanUnit_cons_nondigit isSecondUnit digit_space,
      scanUnit_found (natToChars_ne_nil s) (natToChars_digits s) secU_s
        digit_s space_s,
      digitRunVal_natToChars, digitRunVal_natToChars]
  simp [scanUnit]

/-- Parsing the shape `"Mm"`. -/
theorem parse_shape_m (m : Nat) :
    parseDuration (natToChars m ++ ['m']) = m * 60000 := by
  unfold parseDuration
  rw [scanUnit_skip (natToChars_digits m) digit_m space_m hourU_m,
      scanUnit_found (natToChars_ne_nil m) (natToChars_digits m) minU_m
        digit_m space_m,
      scanUnit_skip (natToChars_digits m) digit_m space_m secU_m,
      digitRunVal_natToChars]
  simp [scanUnit]

/-- Parsing the shape `"Ss"`. -/
theorem parse_shape_s (s : Nat) :
    parseDuration (natToChars s ++ ['s']) = s * 1000 := by
  unfold parseDuration
  rw [scanUnit_skip (natToChars_digits s) digit_s space_s hourU_s,
      scanUnit_skip (natToChars_digits s) digit_s space_s minU_s,
      scanUnit_found (natToChars_ne_nil s) (natToChars_digits s) secU_s
        digit_s space_s,
      digitRunVal_natToChars]
  simp [scanUnit]

/-- Parsing the joined long-form parts recovers the decomposed value. -/
theorem parseDuration_longFormat (h m s : Nat) :
    parseDuration (joinSpace (longFormatParts h m s)) =
      h * 3600000 + m * 60000 + s * 1000 := by
  unfold longFormatParts
  by_cases hh : 0 < h
  · by_cases hm : 0 < m
    · by_cases hs : 0 < s
      · rw [if_pos hh, if_pos hm, if_pos (Or.inl hs)]
        simp only [List.cons_append, List.nil_append]
        show parseDuration ((natToChars h ++ ['t']) ++ ' ' ::
          ((natToChars m ++ ['m']) ++ ' ' :: (natToChars s ++ ['s']))) = _
        simp only [List.append_assoc, List.cons_append, List.nil_append]
        rw [parse_shape_tms]
      · rw [if_pos hh, if_pos hm, if_neg (by omega)]
        simp only [List.cons_append, List.nil_append, List.append_nil]
        show parseDuration ((natToChars h ++ ['t']) ++ ' ' ::
          (natToChars m ++ ['m'])) = _
        simp only [List.append_assoc, List.cons_append, List.nil_append]
        rw [parse_shape_tm]
        omega
    · by_cases hs : 0 < s
      · rw [if_pos hh, if_neg hm, if_pos (Or.inl hs)]
        simp only [List.cons_append, List.nil_append]
        show parseDuration ((natToChars h ++ ['t']) ++ ' ' ::
          (natToChars s ++ ['s'])) = _
        simp only [List.append_assoc, List.cons_append, List.nil_append]
        rw [parse_shape_ts]
        omega
      · rw [if_pos hh, if_neg hm, if_neg (by omega)]
        simp only [List.cons_append, List.nil_append, List.append_nil]
        show parseDuration (natToChars h ++ ['t']) = _
        rw [parse_shape_t]
        omega
  · by_cases hm : 0 < m
    · by_cases hs : 0 < s
      · rw [if_neg hh, if_pos hm, if_pos (Or.inl hs)]
        simp only [List.cons_append, List.nil_append]
        show parseDuration ((natToChars m ++ ['m']) ++ ' ' ::
          (natToChars s ++ ['s'])) = _
        simp only [List.append_assoc, List.cons_append, List.nil_append]
        rw [parse_shape_ms]
        omega
      · rw [if_neg hh, if_pos hm, if_neg (by omega)]
        simp only [List.cons_append, List.nil_append, List.append_nil]
        show parseDuration (natToChars m ++ ['m']) = _
        rw [parse_shape_m]
        omega
    · by_cases hs : 0 < s
      · rw [if_neg hh, if_neg hm, if_pos (Or.inl hs)]
        simp only [List.cons_append, List.nil_append]
        show parseDuration (natToChars s ++ ['s']) = _
        rw [parse_shape_s]
        omega
      · rw [if_neg hh, if_neg hm, if_pos (Or.inr ⟨by omega, by omega⟩)]
        simp only [List.cons_append, List.nil_append]
        show parseDuration (natToChars s ++ ['s']) = _
        rw [parse_shape_s]
        omega

/-- C10: the long-form duration string round-trips through
`parseDuration ∘ formatDuration` to second granularity — the parsed value
is the input truncated to whole seconds, hence within 1000 ms. -/
theorem duration_roundtrip (d : Nat) :
    parseDuration (formatDuration d false) = d / 1000 * 1000 ∧
    ((parseDuration (formatDuration d false) : Int) - (d : Int)).natAbs < 1000 := by
  have hmain : parseDuration (formatDuration d false) = d / 1000 * 1000 := by
    by_cases hd : d = 0
    · subst hd
      decide
    · have hform : formatDuration d false =
          joinSpace (longFormatParts (d / 1000 / 3600) (d / 1000 % 3600 / 60)
            (d / 1000 % 60)) := by
        unfold formatDuration
        rw [if_neg hd]
        rfl
      rw [hform, parseDuration_longFormat]
      omega
  refine ⟨hmain, ?_⟩
  rw [hmain]
  omega
